import Mathlib

/-!
# library-api: the book inventory, issue / return and the catalogue layer

A shallow embedding of `internal/models/book.go`,
`internal/repository/book_repository.go`, `internal/service/book_service.go`,
`internal/api/dto.go` and `internal/api/book_handler.go`.

* The `books` table is a list of rows in the store's order.  Only the scalar
  columns of `models.Book` are kept; the preloaded `Author` / `Publisher`
  structs play no part in any statement below.
* The gorm calls the repository makes (`First`, `Save`, `Updates`, `Delete`,
  `Create`) are given as the SQL statement each one issues against that table.
  An `INSERT` or `UPDATE` of the catalogue layer is refused by the store when the
  new row breaks a constraint of the table (length of a `varchar`, the CHECK,
  the unique ISBN, the primary key, the references to authors and publishers);
  a refused statement writes nothing and its error is what the method returns.
  Transport failures are outside the model of the repository.
* A transaction whose closure returns an error is rolled back: the table the
  method hands back is the one it received.
* `time.Now()` and `uuid.New()` are inputs of the operations that read them.
* Go `int` is modelled by `Int`.  `QuantityIssued++` runs only when
  `QuantityIssued < Quantity` and `QuantityIssued--` only when
  `QuantityIssued > 0`, so neither can leave the 64-bit range of a stored row.
  The product `(page - 1) * limit` of `List` is unguarded and is wrapped to 64 bits.
* A handler receives what gin and the libraries hand it: the value of
  `uuid.Parse(c.Param("id"))`, the value of `c.ShouldBindJSON(&req)`, the values of
  `strconv.Atoi` on the query; the `validate` tags are given the meaning
  `go-playground/validator` gives them.
* `cmd/api/main.go` adds `CHECK (quantity_issued >= 0 AND quantity_issued <= quantity)`
  to the table; the test set-ups migrate the table without it.  The predicate is
  `chk_quantity_issued_valid`, and `Store.chk` says whether the table carries it.
  Every concrete row used below to refute a statement satisfies the CHECK before
  and after each write, so it stands in both set-ups.
-/

namespace LibraryApi

/-! ## Data model (`internal/models/book.go`) -/

/-- A `uuid.UUID`; `0` stands for `uuid.Nil`, the zero value of a record that has no
key yet.  The key of a row is the `uuid.New()` its `BeforeCreate` hook drew, never
`uuid.Nil`. -/
abbrev UUID := Nat

/-- A `time.Time`; `0` stands for the zero time. -/
abbrev Time := Nat

/-- The scalar columns of `models.Book`. -/
structure Book where
  ID : UUID
  Title : String
  ISBN : String
  AuthorID : UUID
  PublisherID : UUID
  Year : Int
  Genre : String
  Quantity : Int
  QuantityIssued : Int
  CreatedAt : Time
  UpdatedAt : Time
deriving DecidableEq, Repr

/-- Go `error` values that the repository and the service produce. -/
inductive Error where
  /-- The sentinel `gorm.ErrRecordNotFound`. -/
  | ErrRecordNotFound
  /-- The value of `fmt.Errorf(msg)`. -/
  | Errorf (msg : String)
  /-- The value of `fmt.Errorf(msg + ": %w", err)`. -/
  | Wrapf (msg : String) (err : Error)
  /-- An error reported by the database driver, by SQLSTATE. -/
  | Driver (sqlstate : String)
  /-- An error of `uuid.Parse`, `encoding/json` or gin's binding, by message. -/
  | Lib (msg : String)
  /-- A `validator.ValidationErrors`: the fields that failed, each with the tag it
  failed on. -/
  | ValidationErrors (failed : List (String × String))
deriving DecidableEq, Repr

/-- The rows of the `books` table, in the store's order. -/
abbrev DB := List Book

/-- The constraint `chk_quantity_issued_valid` of `cmd/api/main.go`:
`quantity_issued >= 0 AND quantity_issued <= quantity`. -/
def chk_quantity_issued_valid (b : Book) : Prop :=
  b.QuantityIssued ≥ 0 ∧ b.QuantityIssued ≤ b.Quantity

instance (b : Book) : Decidable (chk_quantity_issued_valid b) := by
  unfold chk_quantity_issued_valid; infer_instance

/-- What a statement on `books` meets in the database besides the rows of `books`: the
keys of the `authors` and `publishers` tables, which no route of the API changes,
and whether the table carries `chk_quantity_issued_valid` (`cmd/api/main.go` adds
it, the test set-ups migrate the table without it). -/
structure Store where
  authors : List UUID
  publishers : List UUID
  chk : Bool
deriving DecidableEq, Repr

/-- The constraints a new row is held to on its own: `varchar(255)` for the title,
`varchar(13)` for the ISBN, `varchar(100)` for the genre (SQLSTATE 22001), then the
CHECK where the table carries it (SQLSTATE 23514). -/
def rowRefusal (store : Store) (row : Book) : Option Error :=
  if row.Title.length > 255 ∨ row.ISBN.length > 13 ∨ row.Genre.length > 100 then
    some (.Driver "22001")
  else if store.chk = true ∧ ¬ chk_quantity_issued_valid row then
    some (.Driver "23514")
  else
    none

/-- The constraints a new row is held to against the other rows and tables: the unique
index on `isbn` (SQLSTATE 23505), then the foreign keys to `authors` and
`publishers` (SQLSTATE 23503). -/
def keyRefusal (store : Store) (others : List Book) (row : Book) : Option Error :=
  if others.any (fun r => decide (r.ISBN = row.ISBN)) then
    some (.Driver "23505")
  else if row.AuthorID ∉ store.authors ∨ row.PublisherID ∉ store.publishers then
    some (.Driver "23503")
  else
    none

/-- The error, if any, with which the store refuses a new version `row` of a row, the
other rows of the table being `others`. -/
def refusal (store : Store) (others : List Book) (row : Book) : Option Error :=
  match rowRefusal store row with
  | some err => some err
  | none => keyRefusal store others row

/-! ## The gorm statements the repository issues -/

/-- The call `First(&book, "id = ?", id)` (and `First(&book, id)`):
`SELECT * FROM books WHERE id = ? ORDER BY id LIMIT 1`; no row is
`gorm.ErrRecordNotFound`. -/
def First (db : DB) (id : UUID) : Except Error Book :=
  match db.find? (fun r => decide (r.ID = id)) with
  | some book => .ok book
  | none => .error .ErrRecordNotFound

/-- The call `Save(&book)` on a record whose primary key is set (every record read
from the table): `UPDATE books SET` every column, with `updated_at` the current
time, `WHERE id = book.ID`; when no row matched, the record is inserted, a
zero `CreatedAt` filled with the current time.  The record itself receives the
new times. -/
def Save (now : Time) (db : DB) (book : Book) : Book × DB :=
  let book := { book with UpdatedAt := now }
  if db.any (fun r => decide (r.ID = book.ID)) then
    (book, db.map (fun r => if r.ID = book.ID then book else r))
  else
    let book := { book with CreatedAt := if book.CreatedAt = 0 then now else book.CreatedAt }
    (book, db ++ [book])

/-! ## `internal/repository/book_repository.go` -/

/-- The interface `repository.BookRepository`, over a store state `σ`: every
method receives the state and hands back its result with the state after it.
`Create` also hands back the record it was given a pointer to. -/
structure BookRepository (σ : Type) where
  Create : Book → σ → (Option Error × Book) × σ
  Update : Book → σ → Option Error × σ
  Delete : UUID → σ → Option Error × σ
  GetByID : UUID → σ → Except Error Book × σ
  List : Int → Int → σ → Except Error (List Book × Int) × σ
  IssueBook : UUID → σ → Except Error Book × σ
  ReturnBook : UUID → σ → Except Error Book × σ

/-- The statement `INSERT INTO books`: refused on a constraint of the row, on a primary
key already present (SQLSTATE 23505), on an ISBN another row has or on an
unknown author or publisher; otherwise the row is appended. -/
def insertRow (store : Store) (db : DB) (row : Book) : Option Error × DB :=
  match rowRefusal store row with
  | some err => (some err, db)
  | none =>
    if db.any (fun r => decide (r.ID = row.ID)) then
      (some (.Driver "23505"), db)
    else
      match keyRefusal store db row with
      | some err => (some err, db)
      | none => (none, db ++ [row])

/-- The method `(*bookRepository).Create`: the `BeforeCreate` hook sets
`ID = uuid.New()`, gorm fills zero `CreatedAt` / `UpdatedAt` with the current
time, and the row is inserted; the method returns the error of the `INSERT`. -/
def bookRepository.Create (store : Store) (now : Time) (newID : UUID) (db : DB) (book : Book) :
    (Option Error × Book) × DB :=
  let book := { book with ID := newID }
  let book := { book with
    CreatedAt := if book.CreatedAt = 0 then now else book.CreatedAt
    UpdatedAt := if book.UpdatedAt = 0 then now else book.UpdatedAt }
  (((insertRow store db book).1, book), (insertRow store db book).2)

/-- The row `r` with the nine keys of the `Updates` map of `Update` taken from `book`:
`title`, `isbn`, `author_id`, `publisher_id`, `year`, `genre`, `quantity`,
`quantity_issued`, `updated_at`. -/
def updatesMap (book r : Book) : Book :=
  { r with
    Title := book.Title
    ISBN := book.ISBN
    AuthorID := book.AuthorID
    PublisherID := book.PublisherID
    Year := book.Year
    Genre := book.Genre
    Quantity := book.Quantity
    QuantityIssued := book.QuantityIssued
    UpdatedAt := book.UpdatedAt }

/-- The method `(*bookRepository).Update`:
`Model(&models.Book{}).Where("id = ?", book.ID).Updates(map)`, returning the
error of the `UPDATE`.  The store refuses the statement when the new version of
a matching row breaks a constraint, and then writes nothing; a statement that
matches no row writes nothing and is no error. -/
def bookRepository.Update (store : Store) (db : DB) (book : Book) : Option Error × DB :=
  match (db.filter (fun r => decide (r.ID = book.ID))).findSome?
      (fun r => refusal store (db.filter (fun o => decide (o.ID ≠ r.ID))) (updatesMap book r)) with
  | some err => (some err, db)
  | none => (none, db.map (fun r => if r.ID = book.ID then updatesMap book r else r))

/-- The method `(*bookRepository).Delete`: `Delete(&models.Book{}, id)` is
`DELETE FROM books WHERE id = ?`; its `Error` is set only when the statement
fails, not when it affects no row. -/
def bookRepository.Delete (db : DB) (id : UUID) : Option Error × DB :=
  (none, db.filter (fun r => decide (r.ID ≠ id)))

/-- The method `(*bookRepository).GetByID`. -/
def bookRepository.GetByID (db : DB) (id : UUID) : Except Error Book :=
  match First db id with
  | .error err => .error err
  | .ok book => .ok book

/-- Go `int` arithmetic result, wrapped to 64 bits (two's complement). -/
def wrapInt64 (x : Int) : Int := (x + 2 ^ 63) % 2 ^ 64 - 2 ^ 63

/-- The method `(*bookRepository).List`: `Count`, then `Offset(offset).Limit(limit).Find`.
gorm writes `OFFSET` only for a positive offset and `LIMIT` only for a
non-negative limit. -/
def bookRepository.List (db : DB) (page limit : Int) : Except Error (List Book × Int) :=
  let offset := wrapInt64 ((page - 1) * limit)
  let total : Int := db.length
  let rows := if offset > 0 then db.drop offset.toNat else db
  let rows := if limit ≥ 0 then rows.take limit.toNat else rows
  .ok (rows, total)

/-- The method `(*bookRepository).IssueBook`. -/
def bookRepository.IssueBook (now : Time) (db : DB) (id : UUID) : Except Error Book × DB :=
  -- Lock the row FOR UPDATE
  match First db id with
  | .error err => (.error err, db)
  | .ok book =>
    -- Business logic: ensure we don't issue beyond total quantity
    if book.QuantityIssued ≥ book.Quantity then
      (.error (.Errorf "no available copies to issue"), db)
    else
      let book := { book with QuantityIssued := book.QuantityIssued + 1 }
      -- Save updated state
      let (book, db) := Save now db book
      (.ok book, db)

/-- The method `(*bookRepository).ReturnBook`. -/
def bookRepository.ReturnBook (now : Time) (db : DB) (id : UUID) : Except Error Book × DB :=
  -- Lock the row FOR UPDATE
  match First db id with
  | .error err => (.error err, db)
  | .ok book =>
    -- Ensure you can't return below 0
    if book.QuantityIssued ≤ 0 then
      (.error (.Errorf "no issued copies to return"), db)
    else
      let book := { book with QuantityIssued := book.QuantityIssued - 1 }
      -- Save updated state
      let (book, db) := Save now db book
      (.ok book, db)

/-- The constructor `NewBookRepository`, on the table `DB` in the database `store`; `now`
and `newID` are what `time.Now()` and `uuid.New()` give during the call. -/
def NewBookRepository (store : Store) (now : Time) (newID : UUID) : BookRepository DB where
  Create := fun book db => bookRepository.Create store now newID db book
  Update := fun book db => bookRepository.Update store db book
  Delete := fun id db => bookRepository.Delete db id
  GetByID := fun id db => (bookRepository.GetByID db id, db)
  List := fun page limit db => (bookRepository.List db page limit, db)
  IssueBook := fun id db => bookRepository.IssueBook now db id
  ReturnBook := fun id db => bookRepository.ReturnBook now db id

/-! ## `internal/service/book_service.go` -/

section Service
variable {σ : Type}

/-- The method `(*bookService).CreateBook`. -/
def bookService.CreateBook (repo : BookRepository σ) (book : Book) (s : σ) :
    (Option Error × Book) × σ :=
  repo.Create book s

/-- The method `(*bookService).UpdateBook`. -/
def bookService.UpdateBook (repo : BookRepository σ) (book : Book) (s : σ) :
    Option Error × σ :=
  if book.Quantity < book.QuantityIssued then
    (some (.Errorf "quantity cannot be less than the number of issued copies"), s)
  else
    repo.Update book s

/-- The method `(*bookService).DeleteBook`. -/
def bookService.DeleteBook (repo : BookRepository σ) (id : UUID) (s : σ) : Option Error × σ :=
  repo.Delete id s

/-- The method `(*bookService).GetBook`. -/
def bookService.GetBook (repo : BookRepository σ) (id : UUID) (s : σ) : Except Error Book × σ :=
  repo.GetByID id s

/-- The method `(*bookService).ListBooks`. -/
def bookService.ListBooks (repo : BookRepository σ) (page limit : Int) (s : σ) :
    Except Error (List Book × Int) × σ :=
  repo.List page limit s

/-- The method `(*bookService).IssueBook`. -/
def bookService.IssueBook (repo : BookRepository σ) (id : UUID) (s : σ) :
    Except Error Book × σ :=
  match repo.IssueBook id s with
  | (.error err, s) => (.error (.Wrapf "failed to issue book" err), s)
  | (.ok book, s) => (.ok book, s)

/-- The method `(*bookService).ReturnBook`. -/
def bookService.ReturnBook (repo : BookRepository σ) (id : UUID) (s : σ) :
    Except Error Book × σ :=
  match repo.ReturnBook id s with
  | (.error err, s) => (.error (.Wrapf "failed to return book" err), s)
  | (.ok book, s) => (.ok book, s)

end Service

/-! ## Sequences of issue / return calls on one book -/

/-- One call of the inventory engine. -/
inductive Call where
  | Issue
  | Return
deriving DecidableEq, Repr

/-- Run one call at time `now`. -/
def Call.run (c : Call) (now : Time) (db : DB) (id : UUID) : Except Error Book × DB :=
  match c with
  | .Issue => bookRepository.IssueBook now db id
  | .Return => bookRepository.ReturnBook now db id

/-- Run the calls one after another (the order in which the row lock admits
them), each at its own time; the list holds, for every call, its result and
the table after it. -/
def runCalls (id : UUID) : List (Call × Time) → DB → List (Except Error Book × DB)
  | [], _ => []
  | (c, now) :: cs, db =>
    let r := c.run now db id
    r :: runCalls id cs r.2

/-- The table after the last of the calls. -/
def finalDB (id : UUID) : List (Call × Time) → DB → DB
  | [], db => db
  | (c, now) :: cs, db => finalDB id cs (c.run now db id).2

/-- Whether a call returned a book. -/
def isSuccess : Except Error Book → Bool
  | .ok _ => true
  | .error _ => false

/-- Whether a call failed with the capacity error of `IssueBook`. -/
def isCapacityExceeded : Except Error Book → Bool
  | .error (.Errorf msg) => msg == "no available copies to issue"
  | _ => false

/-! ## `internal/api/dto.go` and the `validate` tags -/

/-- The struct `CreateBookRequest`, as `ShouldBindJSON` fills it: a key absent from
the JSON leaves the zero value (`""`, `0`, `uuid.Nil`). -/
structure CreateBookRequest where
  Title : String
  ISBN : String
  AuthorID : UUID
  PublisherID : UUID
  Year : Int
  Genre : String
  Quantity : Int
deriving DecidableEq, Repr

/-- The struct `UpdateBookRequest`. -/
structure UpdateBookRequest where
  Title : String
  ISBN : String
  AuthorID : UUID
  PublisherID : UUID
  Year : Int
  Genre : String
  Quantity : Int
deriving DecidableEq, Repr

/-- A field value as the validator sees it, by Go kind. -/
inductive FieldValue where
  /-- A `string`. -/
  | str (s : String)
  /-- An `int`. -/
  | int (n : Int)
  /-- A `uuid.UUID`, an array of 16 bytes. -/
  | uuid (u : UUID)
deriving DecidableEq, Repr

/-- The tags used in `dto.go`. -/
inductive Tag where
  | required
  | len (n : Int)
  | min (n : Int)
  | max (n : Int)
deriving DecidableEq, Repr

/-- The name of a tag, as a `FieldError` reports it. -/
def Tag.name : Tag → String
  | .required => "required"
  | .len _ => "len"
  | .min _ => "min"
  | .max _ => "max"

/-- Whether a value passes a tag.  `required` asks for a value other than the zero
value of the type; `len`, `min`, `max` compare the number of characters of a
string, the value of an integer, the length (16) of an array. -/
def Tag.holds : Tag → FieldValue → Bool
  | .required, .str s => s != ""
  | .required, .int n => n != 0
  | .required, .uuid u => u != 0
  | .len k, .str s => (s.length : Int) == k
  | .len k, .int n => n == k
  | .len k, .uuid _ => (16 : Int) == k
  | .min k, .str s => decide (k ≤ (s.length : Int))
  | .min k, .int n => decide (k ≤ n)
  | .min k, .uuid _ => decide (k ≤ 16)
  | .max k, .str s => decide ((s.length : Int) ≤ k)
  | .max k, .int n => decide (n ≤ k)
  | .max k, .uuid _ => decide (16 ≤ k)

/-- The tags of a field are tried from left to right; the first that fails is
reported. -/
def firstFailure (tags : List Tag) (v : FieldValue) : Option Tag :=
  tags.find? (fun t => !t.holds v)

/-- The fields of `CreateBookRequest` with their `validate` tags, in declaration
order. -/
def CreateBookRequest.fields (req : CreateBookRequest) :
    List (String × List Tag × FieldValue) :=
  [ ("Title", [.required], .str req.Title),
    ("ISBN", [.required, .len 13], .str req.ISBN),
    ("AuthorID", [.required], .uuid req.AuthorID),
    ("PublisherID", [.required], .uuid req.PublisherID),
    ("Year", [.required, .min 1000, .max 9999], .int req.Year),
    ("Genre", [.required], .str req.Genre),
    ("Quantity", [.required, .min 0], .int req.Quantity) ]

/-- The fields of `UpdateBookRequest` with their `validate` tags, in declaration
order. -/
def UpdateBookRequest.fields (req : UpdateBookRequest) :
    List (String × List Tag × FieldValue) :=
  [ ("Title", [.required], .str req.Title),
    ("ISBN", [.required, .len 13], .str req.ISBN),
    ("AuthorID", [.required], .uuid req.AuthorID),
    ("PublisherID", [.required], .uuid req.PublisherID),
    ("Year", [.required, .min 1000, .max 9999], .int req.Year),
    ("Genre", [.required], .str req.Genre),
    ("Quantity", [.required, .min 0], .int req.Quantity) ]

/-- The call `validate.Struct(req)` on the fields of a struct: `nil` when every field
passes all its tags, otherwise the `ValidationErrors` listing each failing field. -/
def validate.Struct (fields : List (String × List Tag × FieldValue)) : Option Error :=
  match fields.filterMap (fun f => (firstFailure f.2.1 f.2.2).map (fun t => (f.1, t.name))) with
  | [] => none
  | failed => some (.ValidationErrors failed)

/-! ## `internal/api/book_handler.go` -/

/-- The interface `service.BookService`, over a store state `σ`. -/
structure BookService (σ : Type) where
  CreateBook : Book → σ → (Option Error × Book) × σ
  UpdateBook : Book → σ → Option Error × σ
  DeleteBook : UUID → σ → Option Error × σ
  GetBook : UUID → σ → Except Error Book × σ
  ListBooks : Int → Int → σ → Except Error (List Book × Int) × σ
  IssueBook : UUID → σ → Except Error Book × σ
  ReturnBook : UUID → σ → Except Error Book × σ

/-- The constructor `NewBookService`. -/
def NewBookService {σ : Type} (repo : BookRepository σ) : BookService σ where
  CreateBook := bookService.CreateBook repo
  UpdateBook := bookService.UpdateBook repo
  DeleteBook := bookService.DeleteBook repo
  GetBook := bookService.GetBook repo
  ListBooks := bookService.ListBooks repo
  IssueBook := bookService.IssueBook repo
  ReturnBook := bookService.ReturnBook repo

/-- The `net/http` status codes the handlers use. -/
def StatusOK : Nat := 200
def StatusCreated : Nat := 201
def StatusNoContent : Nat := 204
def StatusBadRequest : Nat := 400
def StatusNotFound : Nat := 404
def StatusConflict : Nat := 409
def StatusInternalServerError : Nat := 500

/-- What a handler writes as the JSON body. -/
inductive Body where
  /-- A book. -/
  | book (book : Book)
  /-- The object with `data`, `total`, `page`, `limit` of `ListBooks`. -/
  | page (data : List Book) (total page limit : Int)
  /-- The object `gin.H` with `error` set to a fixed text. -/
  | message (msg : String)
  /-- The object `gin.H` with `error` set to `err.Error()`. -/
  | error (err : Error)
  /-- No body (`c.Status`). -/
  | empty
deriving DecidableEq, Repr

/-- The status and body a handler answers with. -/
structure Response where
  status : Nat
  body : Body
deriving DecidableEq, Repr

/-- The struct `BookHandler`; its `validate` is `validator.New()`. -/
structure BookHandler (σ : Type) where
  bookService : BookService σ

/-- The constructor `NewBookHandler`. -/
def NewBookHandler {σ : Type} (bookService : BookService σ) : BookHandler σ :=
  { bookService := bookService }

section Handler
variable {σ : Type}

/-- The handler `ListBooks`; `page` and `limit` are the values of `strconv.Atoi` on the
query parameters (defaults "1" and "10", `0` when `Atoi` fails). -/
def BookHandler.ListBooks (h : BookHandler σ) (page limit : Int) (s : σ) : Response × σ :=
  match h.bookService.ListBooks page limit s with
  | (.error err, s) => (⟨StatusInternalServerError, .error err⟩, s)
  | (.ok (books, total), s) => (⟨StatusOK, .page books total page limit⟩, s)

/-- The handler `GetBook`; `id` is the value of `uuid.Parse(c.Param("id"))`. -/
def BookHandler.GetBook (h : BookHandler σ) (id : Except Error UUID) (s : σ) : Response × σ :=
  match id with
  | .error _ => (⟨StatusBadRequest, .message "Invalid book ID"⟩, s)
  | .ok id =>
    match h.bookService.GetBook id s with
    | (.error _, s) => (⟨StatusNotFound, .message "Book not found"⟩, s)
    | (.ok book, s) => (⟨StatusOK, .book book⟩, s)

/-- The handler `CreateBook`; `body` is the value of `c.ShouldBindJSON(&req)`. -/
def BookHandler.CreateBook (h : BookHandler σ) (body : Except Error CreateBookRequest)
    (s : σ) : Response × σ :=
  match body with
  | .error err => (⟨StatusBadRequest, .error err⟩, s)
  | .ok req =>
    match validate.Struct req.fields with
    | some err => (⟨StatusBadRequest, .error err⟩, s)
    | none =>
      let book : Book :=
        { ID := 0
          Title := req.Title
          ISBN := req.ISBN
          AuthorID := req.AuthorID
          PublisherID := req.PublisherID
          Year := req.Year
          Genre := req.Genre
          Quantity := req.Quantity
          QuantityIssued := 0
          CreatedAt := 0
          UpdatedAt := 0 }
      match h.bookService.CreateBook book s with
      | ((some err, _), s) => (⟨StatusInternalServerError, .error err⟩, s)
      | ((none, book), s) => (⟨StatusCreated, .book book⟩, s)

/-- The handler `UpdateBook`. -/
def BookHandler.UpdateBook (h : BookHandler σ) (id : Except Error UUID)
    (body : Except Error UpdateBookRequest) (s : σ) : Response × σ :=
  match id with
  | .error _ => (⟨StatusBadRequest, .message "Invalid book ID"⟩, s)
  | .ok id =>
    match body with
    | .error err => (⟨StatusBadRequest, .error err⟩, s)
    | .ok req =>
      match validate.Struct req.fields with
      | some err => (⟨StatusBadRequest, .error err⟩, s)
      | none =>
        -- Fetch the existing book from DB first
        match h.bookService.GetBook id s with
        | (.error _, s) => (⟨StatusNotFound, .message "Book not found"⟩, s)
        | (.ok book, s) =>
          -- Update allowed fields
          let book := { book with
            Title := req.Title
            ISBN := req.ISBN
            AuthorID := req.AuthorID
            PublisherID := req.PublisherID
            Year := req.Year
            Genre := req.Genre
            Quantity := req.Quantity }
          match h.bookService.UpdateBook book s with
          | (some err, s) => (⟨StatusInternalServerError, .error err⟩, s)
          | (none, s) => (⟨StatusOK, .book book⟩, s)

/-- The handler `DeleteBook`. -/
def BookHandler.DeleteBook (h : BookHandler σ) (id : Except Error UUID) (s : σ) :
    Response × σ :=
  match id with
  | .error _ => (⟨StatusBadRequest, .message "Invalid book ID"⟩, s)
  | .ok id =>
    match h.bookService.DeleteBook id s with
    | (some err, s) => (⟨StatusInternalServerError, .error err⟩, s)
    | (none, s) => (⟨StatusNoContent, .empty⟩, s)

/-- The handler `IssueBook`. -/
def BookHandler.IssueBook (h : BookHandler σ) (id : Except Error UUID) (s : σ) :
    Response × σ :=
  match id with
  | .error _ => (⟨StatusBadRequest, .message "Invalid book ID"⟩, s)
  | .ok id =>
    match h.bookService.IssueBook id s with
    | (.error err, s) => (⟨StatusConflict, .error err⟩, s)
    | (.ok book, s) => (⟨StatusOK, .book book⟩, s)

/-- The handler `ReturnBook`. -/
def BookHandler.ReturnBook (h : BookHandler σ) (id : Except Error UUID) (s : σ) :
    Response × σ :=
  match id with
  | .error _ => (⟨StatusBadRequest, .message "Invalid book ID"⟩, s)
  | .ok id =>
    match h.bookService.ReturnBook id s with
    | (.error err, s) => (⟨StatusConflict, .error err⟩, s)
    | (.ok book, s) => (⟨StatusOK, .book book⟩, s)

end Handler

/-- One request to a route of `cmd/api/main.go`, as its handler receives it. -/
inductive Request where
  | ListBooks (page limit : Int)
  | GetBook (id : Except Error UUID)
  | CreateBook (body : Except Error CreateBookRequest)
  | UpdateBook (id : Except Error UUID) (body : Except Error UpdateBookRequest)
  | DeleteBook (id : Except Error UUID)
  | IssueBook (id : Except Error UUID)
  | ReturnBook (id : Except Error UUID)

/-- The wiring of `main`: repository, service and handler over the table; `serve`
answers one request in the database `store`, with `now` and `newID` what
`time.Now()` and `uuid.New()` give while it is handled. -/
def serve (store : Store) (now : Time) (newID : UUID) (req : Request) (db : DB) :
    Response × DB :=
  let bookRepo := NewBookRepository store now newID
  let bookService := NewBookService bookRepo
  let bookHandler := NewBookHandler bookService
  match req with
  | .ListBooks page limit => bookHandler.ListBooks page limit db
  | .GetBook id => bookHandler.GetBook id db
  | .CreateBook body => bookHandler.CreateBook body db
  | .UpdateBook id body => bookHandler.UpdateBook id body db
  | .DeleteBook id => bookHandler.DeleteBook id db
  | .IssueBook id => bookHandler.IssueBook id db
  | .ReturnBook id => bookHandler.ReturnBook id db

/-- The table after a sequence of requests, served one at a time, each with the time
and the fresh id of its handling. -/
def serveAll (store : Store) : List (Time × UUID × Request) → DB → DB
  | [], db => db
  | (now, newID, req) :: rest, db => serveAll store rest (serve store now newID req db).2

/-- The payload of `TestBookCRUDIntegration`. -/
def testCreateRequest : CreateBookRequest where
  Title := "New Integration Book"
  ISBN := "0000001234567"
  AuthorID := 7
  PublisherID := 9
  Year := 2025
  Genre := "Fiction"
  Quantity := 5

/-- The database of the tests as `main` sets it up: author 7, publisher 9, and the
CHECK on `books`. -/
def testStore : Store where
  authors := [7]
  publishers := [9]
  chk := true

/-- The payload of the update in `TestBookCRUDIntegration`. -/
def testUpdateRequest : UpdateBookRequest where
  Title := "Updated Title"
  ISBN := "0000001234567"
  AuthorID := 7
  PublisherID := 9
  Year := 2025
  Genre := "Fiction"
  Quantity := 5

/-- A service whose store cannot be reached: every method fails with the driver's
connection failure (SQLSTATE 08006) and leaves the state alone. -/
def unavailableService : BookService DB where
  CreateBook := fun book db => ((some (.Driver "08006"), book), db)
  UpdateBook := fun _ db => (some (.Driver "08006"), db)
  DeleteBook := fun _ db => (some (.Driver "08006"), db)
  GetBook := fun _ db => (.error (.Driver "08006"), db)
  ListBooks := fun _ _ db => (.error (.Driver "08006"), db)
  IssueBook := fun _ db => (.error (.Driver "08006"), db)
  ReturnBook := fun _ db => (.error (.Driver "08006"), db)

/-- The calls `ReturnBook`, once per given time. -/
def returnCalls (times : List Time) : List (Call × Time) :=
  times.map (fun now => (Call.Return, now))

/-- What a caller sees of one call: the counter of the returned book, or the error. -/
def outcome (r : Except Error Book × DB) : Except Error Int :=
  match r.1 with
  | .ok book => .ok book.QuantityIssued
  | .error err => .error err

/-- Two records agree on every column but `quantity_issued` and `updated_at`: on id,
title, ISBN, author ref, publisher ref, year, genre, quantity and `created_at`. -/
def Book.sameCatalogueData (b b' : Book) : Prop :=
  b'.ID = b.ID ∧ b'.Title = b.Title ∧ b'.ISBN = b.ISBN ∧ b'.AuthorID = b.AuthorID ∧
  b'.PublisherID = b.PublisherID ∧ b'.Year = b.Year ∧ b'.Genre = b.Genre ∧
  b'.Quantity = b.Quantity ∧ b'.CreatedAt = b.CreatedAt

/-! ## Lemmas on the table -/

theorem First_ok_id {db : DB} {id : UUID} {b : Book} (h : First db id = .ok b) : b.ID = id := by
  unfold First at h
  split at h
  · rename_i book hf
    have := List.find?_some hf
    cases h
    simpa using this
  · cases h

theorem First_ok_mem {db : DB} {id : UUID} {b : Book} (h : First db id = .ok b) : b ∈ db := by
  unfold First at h
  split at h
  · rename_i book hf
    cases h
    exact List.mem_of_find?_eq_some hf
  · cases h

theorem First_ok_any {db : DB} {id : UUID} {b : Book} (h : First db id = .ok b) :
    db.any (fun r => decide (r.ID = id)) = true := by
  rw [List.any_eq_true]
  exact ⟨b, First_ok_mem h, by simpa using First_ok_id h⟩

/-- Reading a key after every row with that key was replaced by `x`. -/
theorem First_map_replace (db : DB) (id : UUID) (x : Book) (hx : x.ID = id) :
    First (db.map (fun r => if r.ID = id then x else r)) id
      = (First db id).map (fun _ => x) := by
  induction db with
  | nil => rfl
  | cons r rs ih =>
    unfold First at ih ⊢
    by_cases hr : r.ID = id
    · simp [List.find?_cons, hr, hx, Except.map]
    · simp only [List.map_cons, List.find?_cons, hr, if_false, decide_False]
      exact ih

/-- Reading another key is not affected by rewriting the rows with key `id`. -/
theorem First_map_other (db : DB) (id id' : UUID) (f : Book → Book)
    (hf : ∀ r, (f r).ID = r.ID) (hne : id' ≠ id) :
    First (db.map (fun r => if r.ID = id then f r else r)) id' = First db id' := by
  have key : ∀ l : List Book,
      (l.map (fun r => if r.ID = id then f r else r)).find? (fun r => decide (r.ID = id'))
        = l.find? (fun r => decide (r.ID = id')) := by
    intro l
    induction l with
    | nil => rfl
    | cons r rs ih =>
      rw [List.map_cons, List.find?_cons, List.find?_cons, ih]
      by_cases hr' : r.ID = id'
      · have hr : ¬ r.ID = id := fun h => hne (hr'.symm.trans h)
        rw [if_neg hr]
      · have h1 : ¬ (if r.ID = id then f r else r).ID = id' := by
          split
          · rw [hf]; exact hr'
          · exact hr'
        rw [decide_eq_false h1, decide_eq_false hr']
  unfold First
  rw [key]

/-- Reading a key after every row with that key was rewritten by `f`, which keeps
the key. -/
theorem First_map_rewrite (db : DB) (id : UUID) (f : Book → Book)
    (hf : ∀ r, (f r).ID = r.ID) :
    First (db.map (fun r => if r.ID = id then f r else r)) id = (First db id).map f := by
  induction db with
  | nil => rfl
  | cons r rs ih =>
    unfold First at ih ⊢
    rw [List.map_cons, List.find?_cons, List.find?_cons]
    by_cases hr : r.ID = id
    · have h1 : (f r).ID = id := by rw [hf]; exact hr
      rw [if_pos hr, decide_eq_true h1, decide_eq_true hr]
      rfl
    · rw [if_neg hr, decide_eq_false hr]
      exact ih

/-- Reading a key after its rows were deleted. -/
theorem First_filter_ne_self (db : DB) (id : UUID) :
    First (db.filter (fun r => decide (r.ID ≠ id))) id = .error .ErrRecordNotFound := by
  unfold First
  have : (db.filter (fun r => decide (r.ID ≠ id))).find? (fun r => decide (r.ID = id)) = none := by
    rw [List.find?_eq_none]
    intro r hr
    have := (List.mem_filter.mp hr).2
    simpa using this
  rw [this]

/-- Reading another key after the rows with key `id` were deleted. -/
theorem First_filter_ne_other (db : DB) (id id' : UUID) (hne : id' ≠ id) :
    First (db.filter (fun r => decide (r.ID ≠ id))) id' = First db id' := by
  unfold First
  have : (db.filter (fun r => decide (r.ID ≠ id))).find? (fun r => decide (r.ID = id'))
      = db.find? (fun r => decide (r.ID = id')) := by
    induction db with
    | nil => rfl
    | cons r rs ih =>
      by_cases hr : r.ID = id
      · have h1 : ¬ r.ID = id' := fun h => hne (h.symm.trans hr)
        rw [List.filter_cons_of_neg (by simpa using hr), List.find?_cons, decide_eq_false h1]
        exact ih
      · rw [List.filter_cons_of_pos (by simpa using hr), List.find?_cons, List.find?_cons, ih]
  rw [this]

/-- A key that is not stored: deleting it changes nothing. -/
theorem filter_ne_of_absent (db : DB) (id : UUID)
    (h : First db id = .error .ErrRecordNotFound) :
    db.filter (fun r => decide (r.ID ≠ id)) = db := by
  rw [List.filter_eq_self]
  intro r hr
  unfold First at h
  split at h
  · cases h
  · rename_i hnone
    have := List.find?_eq_none.mp hnone r hr
    simpa using this

/-- What `Save` does to a record that was just read from the table. -/
theorem Save_of_First {db : DB} {id : UUID} {b : Book} (now : Time) (book : Book)
    (h : First db id = .ok b) (hid : book.ID = id) :
    Save now db book =
      ({ book with UpdatedAt := now },
        db.map (fun r => if r.ID = id then { book with UpdatedAt := now } else r)) := by
  unfold Save
  simp only [hid, First_ok_any h, if_true]

/-! ## What one issue or return does -/

/-- The guard of `IssueBook` refuses: nothing is written. -/
theorem IssueBook_refused {db : DB} {id : UUID} {b : Book} (now : Time)
    (hb : First db id = .ok b) (hq : b.QuantityIssued ≥ b.Quantity) :
    bookRepository.IssueBook now db id
      = (.error (.Errorf "no available copies to issue"), db) := by
  unfold bookRepository.IssueBook
  rw [hb]
  simp only [hq, if_true]

/-- The guard of `IssueBook` lets the call through: the row is rewritten with the
counter one higher. -/
theorem IssueBook_done {db : DB} {id : UUID} {b : Book} (now : Time)
    (hb : First db id = .ok b) (hq : b.QuantityIssued < b.Quantity) :
    bookRepository.IssueBook now db id
      = (.ok { b with QuantityIssued := b.QuantityIssued + 1, UpdatedAt := now },
          db.map (fun r => if r.ID = id then
            { b with QuantityIssued := b.QuantityIssued + 1, UpdatedAt := now } else r)) := by
  unfold bookRepository.IssueBook
  rw [hb]
  have hq' : ¬ b.QuantityIssued ≥ b.Quantity := not_le.mpr hq
  simp only [hq', if_false]
  have hid : b.ID = id := First_ok_id hb
  rw [Save_of_First now { b with QuantityIssued := b.QuantityIssued + 1 } hb hid]

/-- The guard of `ReturnBook` refuses: nothing is written. -/
theorem ReturnBook_refused {db : DB} {id : UUID} {b : Book} (now : Time)
    (hb : First db id = .ok b) (hq : b.QuantityIssued ≤ 0) :
    bookRepository.ReturnBook now db id
      = (.error (.Errorf "no issued copies to return"), db) := by
  unfold bookRepository.ReturnBook
  rw [hb]
  simp only [hq, if_true]

/-- The guard of `ReturnBook` lets the call through: the row is rewritten with the
counter one lower. -/
theorem ReturnBook_done {db : DB} {id : UUID} {b : Book} (now : Time)
    (hb : First db id = .ok b) (hq : 0 < b.QuantityIssued) :
    bookRepository.ReturnBook now db id
      = (.ok { b with QuantityIssued := b.QuantityIssued - 1, UpdatedAt := now },
          db.map (fun r => if r.ID = id then
            { b with QuantityIssued := b.QuantityIssued - 1, UpdatedAt := now } else r)) := by
  unfold bookRepository.ReturnBook
  rw [hb]
  have hq' : ¬ b.QuantityIssued ≤ 0 := not_le.mpr hq
  simp only [hq', if_false]
  have hid : b.ID = id := First_ok_id hb
  rw [Save_of_First now { b with QuantityIssued := b.QuantityIssued - 1 } hb hid]

/-- Reading the row back after it was rewritten by a record carrying its key. -/
theorem First_after_write {db : DB} {id : UUID} {b : Book} (x : Book)
    (hb : First db id = .ok b) (hx : x.ID = id) :
    First (db.map (fun r => if r.ID = id then x else r)) id = .ok x := by
  rw [First_map_replace db id x hx, hb]
  rfl

/-- One call keeps the row present, keeps its quantity and keeps the counter in
range. -/
theorem Call.run_keeps {db : DB} {id : UUID} {b : Book} (c : Call) (now : Time)
    (hb : First db id = .ok b)
    (h0 : 0 ≤ b.QuantityIssued) (h1 : b.QuantityIssued ≤ b.Quantity) :
    ∃ b', First (c.run now db id).2 id = .ok b' ∧
      0 ≤ b'.QuantityIssued ∧ b'.QuantityIssued ≤ b'.Quantity ∧ b'.Quantity = b.Quantity := by
  have hid := First_ok_id hb
  cases c with
  | Issue =>
    by_cases hq : b.QuantityIssued < b.Quantity
    · refine ⟨{ b with QuantityIssued := b.QuantityIssued + 1, UpdatedAt := now }, ?_, ?_, ?_, rfl⟩
      · simp only [Call.run]
        rw [IssueBook_done now hb hq]
        exact First_after_write _ hb hid
      · show 0 ≤ b.QuantityIssued + 1
        omega
      · show b.QuantityIssued + 1 ≤ b.Quantity
        omega
    · refine ⟨b, ?_, h0, h1, rfl⟩
      simp only [Call.run]
      rw [IssueBook_refused now hb (not_lt.mp hq)]
      exact hb
  | Return =>
    by_cases hq : 0 < b.QuantityIssued
    · refine ⟨{ b with QuantityIssued := b.QuantityIssued - 1, UpdatedAt := now }, ?_, ?_, ?_, rfl⟩
      · simp only [Call.run]
        rw [ReturnBook_done now hb hq]
        exact First_after_write _ hb hid
      · show 0 ≤ b.QuantityIssued - 1
        omega
      · show b.QuantityIssued - 1 ≤ b.Quantity
        omega
    · refine ⟨b, ?_, h0, h1, rfl⟩
      simp only [Call.run]
      rw [ReturnBook_refused now hb (not_lt.mp hq)]
      exact hb

/-- Every call yields one result. -/
theorem runCalls_length (id : UUID) (calls : List (Call × Time)) (db : DB) :
    (runCalls id calls db).length = calls.length := by
  induction calls generalizing db with
  | nil => rfl
  | cons c cs ih =>
    obtain ⟨c, now⟩ := c
    simp [runCalls, ih]

/-- The calls `IssueBook`, once per given time. -/
def issueCalls (times : List Time) : List (Call × Time) :=
  times.map (fun now => (Call.Issue, now))

theorem runCalls_issueCalls_cons (id : UUID) (now : Time) (ts : List Time) (db : DB) :
    runCalls id (issueCalls (now :: ts)) db
      = bookRepository.IssueBook now db id
        :: runCalls id (issueCalls ts) (bookRepository.IssueBook now db id).2 := rfl

theorem finalDB_issueCalls_cons (id : UUID) (now : Time) (ts : List Time) (db : DB) :
    finalDB id (issueCalls (now :: ts)) db
      = finalDB id (issueCalls ts) (bookRepository.IssueBook now db id).2 := rfl

/-- Issuing `times.length` times from a counter at `k` of `Q` copies: the numbers of
successes and of capacity failures, and the counter at the end. -/
theorem issueCalls_counts (id : UUID) (Q : Nat) (times : List Time) :
    ∀ (k : Nat) (db : DB) (b : Book), k ≤ Q → First db id = .ok b →
      b.QuantityIssued = k → b.Quantity = Q →
      (runCalls id (issueCalls times) db).countP (fun r => isSuccess r.1)
        = min times.length (Q - k) ∧
      (runCalls id (issueCalls times) db).countP (fun r => isCapacityExceeded r.1)
        = times.length - min times.length (Q - k) ∧
      ∃ b', First (finalDB id (issueCalls times) db) id = .ok b' ∧
        b'.QuantityIssued = ((k + min times.length (Q - k) : Nat) : Int) ∧
        b'.Quantity = Q := by
  induction times with
  | nil =>
    intro k db b _ hb hk hQ
    refine ⟨by simp [issueCalls, runCalls], by simp [issueCalls, runCalls], b, hb, ?_, hQ⟩
    simp [hk]
  | cons now ts ih =>
    intro k db b hkQ hb hk hQ
    have hid : b.ID = id := First_ok_id hb
    rw [runCalls_issueCalls_cons, finalDB_issueCalls_cons, List.length_cons]
    by_cases hlt : k < Q
    · have hq : b.QuantityIssued < b.Quantity := by rw [hk, hQ]; exact_mod_cast hlt
      have hb1 := First_after_write
        { b with QuantityIssued := b.QuantityIssued + 1, UpdatedAt := now } hb hid
      obtain ⟨hs, hf, b', hb', hq', hQ'⟩ := ih (k + 1) _ _ hlt hb1
        (by show b.QuantityIssued + 1 = ((k + 1 : Nat) : Int); rw [hk]; push_cast; ring) hQ
      rw [IssueBook_done now hb hq]
      refine ⟨?_, ?_, b', hb', ?_, hQ'⟩
      · rw [List.countP_cons_of_pos _ _ (by rfl), hs]
        omega
      · rw [List.countP_cons_of_neg _ _ (by simp [isCapacityExceeded]), hf]
        omega
      · rw [hq']
        congr 1
        omega
    · have hkeq : k = Q := le_antisymm hkQ (not_lt.mp hlt)
      have hq : b.QuantityIssued ≥ b.Quantity := by rw [hk, hQ, hkeq]
      obtain ⟨hs, hf, b', hb', hq', hQ'⟩ := ih k db b hkQ hb hk hQ
      rw [IssueBook_refused now hb hq]
      refine ⟨?_, ?_, b', hb', ?_, hQ'⟩
      · rw [List.countP_cons_of_neg _ _ (by simp [isSuccess]), hs]
        omega
      · rw [List.countP_cons_of_pos _ _ (by rfl), hf]
        omega
      · rw [hq']
        congr 1
        omega

/-- The book of `TestBookRepository_CRUD`, stored under key `1`. -/
def testBook : Book where
  ID := 1
  Title := "Test Book"
  ISBN := "1234567890123"
  AuthorID := 7
  PublisherID := 9
  Year := 2025
  Genre := "Test"
  Quantity := 2
  QuantityIssued := 0
  CreatedAt := 100
  UpdatedAt := 100

/-- A second stored book, with every copy lent out. -/
def otherBook : Book where
  ID := 2
  Title := "Other Book"
  ISBN := "9876543210123"
  AuthorID := 7
  PublisherID := 9
  Year := 2024
  Genre := "Non-Fiction"
  Quantity := 3
  QuantityIssued := 3
  CreatedAt := 50
  UpdatedAt := 60

/-! ## What the catalogue statements do -/

/-- The statement of `Update` is refused and writes nothing, or it rewrites the rows
with the key. -/
theorem Update_cases (store : Store) (db : DB) (book : Book) :
    (∃ err, bookRepository.Update store db book = (some err, db)) ∨
    bookRepository.Update store db book
      = (none, db.map (fun r => if r.ID = book.ID then updatesMap book r else r)) := by
  unfold bookRepository.Update
  split
  · rename_i err _
    exact Or.inl ⟨err, rfl⟩
  · exact Or.inr rfl

/-- The `INSERT` is refused and writes nothing, or it appends the row under a key no
row had. -/
theorem insertRow_cases (store : Store) (db : DB) (row : Book) :
    (∃ err, insertRow store db row = (some err, db)) ∨
    (¬ db.any (fun r => decide (r.ID = row.ID)) = true ∧
      insertRow store db row = (none, db ++ [row])) := by
  unfold insertRow
  cases h1 : rowRefusal store row with
  | some err => exact Or.inl ⟨err, rfl⟩
  | none =>
    by_cases hdup : db.any (fun r => decide (r.ID = row.ID)) = true
    · simp only [hdup, if_true]
      exact Or.inl ⟨_, rfl⟩
    · simp only [hdup]
      cases h3 : keyRefusal store db row with
      | some err => exact Or.inl ⟨err, rfl⟩
      | none => exact Or.inr ⟨by decide, rfl⟩

/-- The create handler, for a payload that passed validation: 500 with the table as it
was, or 201 with the new row appended under a key no row had. -/
theorem serve_CreateBook (store : Store) (now : Time) (newID : UUID) (req : CreateBookRequest)
    (db : DB) (hv : validate.Struct req.fields = none) :
    (∃ err, serve store now newID (.CreateBook (.ok req)) db
      = (⟨StatusInternalServerError, .error err⟩, db)) ∨
    (¬ db.any (fun r => decide (r.ID = newID)) = true ∧
      serve store now newID (.CreateBook (.ok req)) db
        = (⟨StatusCreated, .book
              { ID := newID, Title := req.Title, ISBN := req.ISBN, AuthorID := req.AuthorID,
                PublisherID := req.PublisherID, Year := req.Year, Genre := req.Genre,
                Quantity := req.Quantity, QuantityIssued := 0, CreatedAt := now,
                UpdatedAt := now }⟩,
            db ++ [{ ID := newID, Title := req.Title, ISBN := req.ISBN,
                     AuthorID := req.AuthorID, PublisherID := req.PublisherID, Year := req.Year,
                     Genre := req.Genre, Quantity := req.Quantity, QuantityIssued := 0,
                     CreatedAt := now, UpdatedAt := now }])) := by
  simp only [serve, NewBookHandler, NewBookService, NewBookRepository, BookHandler.CreateBook,
    bookService.CreateBook, bookRepository.Create, hv, if_true]
  rcases insertRow_cases store db
    { ID := newID, Title := req.Title, ISBN := req.ISBN, AuthorID := req.AuthorID,
      PublisherID := req.PublisherID, Year := req.Year, Genre := req.Genre,
      Quantity := req.Quantity, QuantityIssued := 0, CreatedAt := now, UpdatedAt := now }
    with ⟨err, he⟩ | ⟨hdup, he⟩
  · exact Or.inl ⟨err, by rw [he]⟩
  · exact Or.inr ⟨hdup, by rw [he]⟩

/-- The create handler on a payload that fails validation. -/
theorem serve_CreateBook_invalid (store : Store) (now : Time) (newID : UUID)
    (req : CreateBookRequest) (db : DB) (err : Error)
    (hv : validate.Struct req.fields = some err) :
    serve store now newID (.CreateBook (.ok req)) db = (⟨StatusBadRequest, .error err⟩, db) := by
  simp only [serve, NewBookHandler, BookHandler.CreateBook, hv]

/-- The table after the update handler, for a payload that passed validation and a key
that is stored: untouched, or every row with the key rewritten from the row read
with the counter it had. -/
theorem serve_UpdateBook (store : Store) (now : Time) (newID : UUID) (id : UUID)
    (req : UpdateBookRequest) (db : DB) (b : Book)
    (hv : validate.Struct req.fields = none) (hb : First db id = .ok b) :
    (serve store now newID (.UpdateBook (.ok id) (.ok req)) db).2 = db ∨
    (¬ req.Quantity < b.QuantityIssued ∧
      (serve store now newID (.UpdateBook (.ok id) (.ok req)) db).2
        = db.map (fun r => if r.ID = b.ID then
            updatesMap { b with Title := req.Title, ISBN := req.ISBN, AuthorID := req.AuthorID,
                                PublisherID := req.PublisherID, Year := req.Year,
                                Genre := req.Genre, Quantity := req.Quantity } r
          else r)) := by
  by_cases h : req.Quantity < b.QuantityIssued
  · left
    simp only [serve, NewBookHandler, NewBookService, NewBookRepository, BookHandler.UpdateBook,
      bookService.GetBook, bookService.UpdateBook, bookRepository.GetByID, hv, hb, h, if_true]
  · rcases Update_cases store db
      { b with Title := req.Title, ISBN := req.ISBN, AuthorID := req.AuthorID,
               PublisherID := req.PublisherID, Year := req.Year, Genre := req.Genre,
               Quantity := req.Quantity } with ⟨err, he⟩ | he
    · left
      simp only [serve, NewBookHandler, NewBookService, NewBookRepository,
        BookHandler.UpdateBook, bookService.GetBook, bookService.UpdateBook,
        bookRepository.GetByID, hv, hb, h, if_false, he]
    · refine Or.inr ⟨h, ?_⟩
      simp only [serve, NewBookHandler, NewBookService, NewBookRepository,
        BookHandler.UpdateBook, bookService.GetBook, bookService.UpdateBook,
        bookRepository.GetByID, hv, hb, h, if_false, he]

/-- The update handler on a key that is not stored. -/
theorem serve_UpdateBook_absent (store : Store) (now : Time) (newID : UUID) (id : UUID)
    (req : UpdateBookRequest) (db : DB) (e : Error)
    (hv : validate.Struct req.fields = none) (hb : First db id = .error e) :
    serve store now newID (.UpdateBook (.ok id) (.ok req)) db
      = (⟨StatusNotFound, .message "Book not found"⟩, db) := by
  simp only [serve, NewBookHandler, NewBookService, NewBookRepository, BookHandler.UpdateBook,
    bookService.GetBook, bookRepository.GetByID, hv, hb]

/-- The update handler on a payload that fails validation. -/
theorem serve_UpdateBook_invalid (store : Store) (now : Time) (newID : UUID) (id : UUID)
    (req : UpdateBookRequest) (db : DB) (err : Error)
    (hv : validate.Struct req.fields = some err) :
    serve store now newID (.UpdateBook (.ok id) (.ok req)) db
      = (⟨StatusBadRequest, .error err⟩, db) := by
  simp only [serve, NewBookHandler, BookHandler.UpdateBook, hv]

/-- The update handler keeps the stored counter of the book it updates, whatever the
payload. -/
theorem serve_UpdateBook_counter (store : Store) (now : Time) (newID : UUID) (id : UUID)
    (body : Except Error UpdateBookRequest) (db : DB) (b : Book) (hb : First db id = .ok b) :
    ∃ b', First (serve store now newID (.UpdateBook (.ok id) body) db).2 id = .ok b' ∧
      b'.QuantityIssued = b.QuantityIssued := by
  cases body with
  | error e => exact ⟨b, hb, rfl⟩
  | ok req =>
    cases hv : validate.Struct req.fields with
    | some err =>
      rw [serve_UpdateBook_invalid store now newID id req db err hv]
      exact ⟨b, hb, rfl⟩
    | none =>
      rcases serve_UpdateBook store now newID id req db b hv hb with h | ⟨_, h⟩
      · rw [h]; exact ⟨b, hb, rfl⟩
      · obtain rfl := First_ok_id hb
        rw [h, First_map_rewrite db b.ID (updatesMap _) (fun _ => rfl), hb]
        exact ⟨_, rfl, rfl⟩

/-! ## The claims -/

/-- C1. For a stored book with `0 <= quantity_issued <= quantity` and any finite
sequence of `IssueBook` / `ReturnBook` calls on it, applied one after another,
the table after every call, successful or failed, still holds the book with
`0 <= quantity_issued <= quantity` and with its quantity unchanged. -/
theorem C1_invariant_after_every_call (db : DB) (id : UUID) (b : Book)
    (hb : First db id = .ok b)
    (h0 : 0 ≤ b.QuantityIssued) (h1 : b.QuantityIssued ≤ b.Quantity)
    (calls : List (Call × Time)) :
    ∀ r ∈ runCalls id calls db, ∃ b', First r.2 id = .ok b' ∧
      0 ≤ b'.QuantityIssued ∧ b'.QuantityIssued ≤ b'.Quantity ∧ b'.Quantity = b.Quantity := by
  induction calls generalizing db b with
  | nil => intro r hr; cases hr
  | cons c cs ih =>
    obtain ⟨c, now⟩ := c
    obtain ⟨b1, hb1, h01, h11, hq1⟩ := Call.run_keeps c now hb h0 h1
    intro r hr
    simp only [runCalls, List.mem_cons] at hr
    rcases hr with rfl | hr
    · exact ⟨b1, hb1, h01, h11, hq1⟩
    · obtain ⟨b2, hb2, h02, h12, hq2⟩ := ih _ b1 hb1 h01 h11 r hr
      exact ⟨b2, hb2, h02, h12, hq2.trans hq1⟩

/-- C1, on the test book: issue, issue, issue, return, return, return, return. -/
theorem C1_invariant_after_every_call_witness :
    First [testBook, otherBook] 1 = .ok testBook ∧
    (0 : Int) ≤ testBook.QuantityIssued ∧ testBook.QuantityIssued ≤ testBook.Quantity ∧
    ∀ r ∈ runCalls 1 [(.Issue, 101), (.Issue, 102), (.Issue, 103), (.Return, 104),
        (.Return, 105), (.Return, 106), (.Return, 107)] [testBook, otherBook],
      ∃ b', First r.2 1 = .ok b' ∧
        0 ≤ b'.QuantityIssued ∧ b'.QuantityIssued ≤ b'.Quantity ∧
        b'.Quantity = testBook.Quantity :=
  ⟨rfl, by decide, by decide,
    C1_invariant_after_every_call [testBook, otherBook] 1 testBook rfl (by decide) (by decide) _⟩

/-- C2. For a stored book with `quantity_issued >= quantity`, `IssueBook(id)` fails
with the error "no available copies to issue", returns no book, and hands back
the table exactly as it was. -/
theorem C2_issue_at_capacity_fails (now : Time) (db : DB) (id : UUID) (b : Book)
    (hb : First db id = .ok b) (hq : b.QuantityIssued ≥ b.Quantity) :
    bookRepository.IssueBook now db id
      = (.error (.Errorf "no available copies to issue"), db) ∧
    First (bookRepository.IssueBook now db id).2 id = .ok b :=
  ⟨IssueBook_refused now hb hq, by rw [IssueBook_refused now hb hq]; exact hb⟩

/-- C2, on a stored book with 3 of 3 copies lent out. -/
theorem C2_issue_at_capacity_fails_witness :
    First [testBook, otherBook] 2 = .ok otherBook ∧
    otherBook.QuantityIssued ≥ otherBook.Quantity ∧
    bookRepository.IssueBook 200 [testBook, otherBook] 2
      = (.error (.Errorf "no available copies to issue"), [testBook, otherBook]) ∧
    First (bookRepository.IssueBook 200 [testBook, otherBook] 2).2 2 = .ok otherBook :=
  ⟨rfl, by decide,
    C2_issue_at_capacity_fails 200 [testBook, otherBook] 2 otherBook rfl (by decide)⟩

/-- C3. For a stored book with `quantity_issued < quantity`, `IssueBook(id)` succeeds,
the stored `quantity_issued` afterwards is the previous value plus 1, and the
returned book is the row as stored after the increment. -/
theorem C3_issue_increments (now : Time) (db : DB) (id : UUID) (b : Book)
    (hb : First db id = .ok b) (hq : b.QuantityIssued < b.Quantity) :
    ∃ b' db', bookRepository.IssueBook now db id = (.ok b', db') ∧
      First db' id = .ok b' ∧
      b'.QuantityIssued = b.QuantityIssued + 1 ∧
      b' = { b with QuantityIssued := b.QuantityIssued + 1, UpdatedAt := now } :=
  ⟨_, _, IssueBook_done now hb hq, First_after_write _ hb (First_ok_id (b := b) hb), rfl, rfl⟩

/-- C3, on the test book with 0 of 2 copies lent out. -/
theorem C3_issue_increments_witness :
    First [testBook, otherBook] 1 = .ok testBook ∧
    testBook.QuantityIssued < testBook.Quantity ∧
    ∃ b' db', bookRepository.IssueBook 200 [testBook, otherBook] 1 = (.ok b', db') ∧
      First db' 1 = .ok b' ∧
      b'.QuantityIssued = testBook.QuantityIssued + 1 ∧
      b' = { testBook with QuantityIssued := testBook.QuantityIssued + 1, UpdatedAt := 200 } :=
  ⟨rfl, by decide, C3_issue_increments 200 [testBook, otherBook] 1 testBook rfl (by decide)⟩

/-- C4. For a stored book with `quantity_issued <= 0`, `ReturnBook(id)` fails with the
error "no issued copies to return", returns no book, and hands back the table
exactly as it was. -/
theorem C4_return_at_zero_fails (now : Time) (db : DB) (id : UUID) (b : Book)
    (hb : First db id = .ok b) (hq : b.QuantityIssued ≤ 0) :
    bookRepository.ReturnBook now db id
      = (.error (.Errorf "no issued copies to return"), db) ∧
    First (bookRepository.ReturnBook now db id).2 id = .ok b :=
  ⟨ReturnBook_refused now hb hq, by rw [ReturnBook_refused now hb hq]; exact hb⟩

/-- C4, on the test book with 0 copies lent out. -/
theorem C4_return_at_zero_fails_witness :
    First [testBook, otherBook] 1 = .ok testBook ∧
    testBook.QuantityIssued ≤ 0 ∧
    bookRepository.ReturnBook 200 [testBook, otherBook] 1
      = (.error (.Errorf "no issued copies to return"), [testBook, otherBook]) ∧
    First (bookRepository.ReturnBook 200 [testBook, otherBook] 1).2 1 = .ok testBook :=
  ⟨rfl, by decide,
    C4_return_at_zero_fails 200 [testBook, otherBook] 1 testBook rfl (by decide)⟩

/-- C5. For a stored book with `quantity_issued > 0`, `ReturnBook(id)` succeeds, the
stored `quantity_issued` afterwards is the previous value minus 1, and the
returned book is the row as stored after the decrement. -/
theorem C5_return_decrements (now : Time) (db : DB) (id : UUID) (b : Book)
    (hb : First db id = .ok b) (hq : b.QuantityIssued > 0) :
    ∃ b' db', bookRepository.ReturnBook now db id = (.ok b', db') ∧
      First db' id = .ok b' ∧
      b'.QuantityIssued = b.QuantityIssued - 1 ∧
      b' = { b with QuantityIssued := b.QuantityIssued - 1, UpdatedAt := now } :=
  ⟨_, _, ReturnBook_done now hb hq, First_after_write _ hb (First_ok_id (b := b) hb), rfl, rfl⟩

/-- C5, on a stored book with 3 copies lent out. -/
theorem C5_return_decrements_witness :
    First [testBook, otherBook] 2 = .ok otherBook ∧
    otherBook.QuantityIssued > 0 ∧
    ∃ b' db', bookRepository.ReturnBook 200 [testBook, otherBook] 2 = (.ok b', db') ∧
      First db' 2 = .ok b' ∧
      b'.QuantityIssued = otherBook.QuantityIssued - 1 ∧
      b' = { otherBook with QuantityIssued := otherBook.QuantityIssued - 1, UpdatedAt := 200 } :=
  ⟨rfl, by decide, C5_return_decrements 200 [testBook, otherBook] 2 otherBook rfl (by decide)⟩

/-- C6. For a stored book with `quantity = Q >= 0` and `quantity_issued = 0`, `N`
calls of `IssueBook` taken one after another give exactly `min(N,Q)` successes
and `N - min(N,Q)` failures with the capacity error, and the stored
`quantity_issued` at the end is `min(N,Q)`. -/
theorem C6_n_issues (db : DB) (id : UUID) (b : Book) (Q : Nat) (times : List Time)
    (hb : First db id = .ok b) (h0 : b.QuantityIssued = 0) (hQ : b.Quantity = Q) :
    (runCalls id (issueCalls times) db).length = times.length ∧
    (runCalls id (issueCalls times) db).countP (fun r => isSuccess r.1)
      = min times.length Q ∧
    (runCalls id (issueCalls times) db).countP (fun r => isCapacityExceeded r.1)
      = times.length - min times.length Q ∧
    ∃ b', First (finalDB id (issueCalls times) db) id = .ok b' ∧
      b'.QuantityIssued = ((min times.length Q : Nat) : Int) := by
  obtain ⟨hs, hf, b', hb', hq', _⟩ :=
    issueCalls_counts id Q times 0 db b (Nat.zero_le _) hb (by simpa using h0) hQ
  refine ⟨runCalls_length id _ db |>.trans (by simp [issueCalls]), ?_, ?_, b', hb', ?_⟩
  · simpa using hs
  · simpa using hf
  · simpa using hq'

/-- C6, on the test book (`Q = 2`) with five issue calls: two successes, three
capacity failures, counter at 2. -/
theorem C6_n_issues_witness :
    First [testBook, otherBook] 1 = .ok testBook ∧
    testBook.QuantityIssued = 0 ∧ testBook.Quantity = (2 : Nat) ∧
    (runCalls 1 (issueCalls [101, 102, 103, 104, 105]) [testBook, otherBook]).length = 5 ∧
    (runCalls 1 (issueCalls [101, 102, 103, 104, 105]) [testBook, otherBook]).countP
      (fun r => isSuccess r.1) = min 5 2 ∧
    (runCalls 1 (issueCalls [101, 102, 103, 104, 105]) [testBook, otherBook]).countP
      (fun r => isCapacityExceeded r.1) = 5 - min 5 2 ∧
    ∃ b', First (finalDB 1 (issueCalls [101, 102, 103, 104, 105]) [testBook, otherBook]) 1
        = .ok b' ∧
      b'.QuantityIssued = ((min 5 2 : Nat) : Int) :=
  ⟨rfl, rfl, rfl,
    C6_n_issues [testBook, otherBook] 1 testBook 2 [101, 102, 103, 104, 105] rfl rfl rfl⟩

/-- C7. For a stored book, a row of the table on which `cmd/api/main.go` puts
`chk_quantity_issued_valid`, on which `IssueBook` succeeds, a `ReturnBook` on the
same book right after it also succeeds, returns the row as stored, and the
stored `quantity_issued` is back at its value before the issue. -/
theorem C7_issue_then_return (now now' : Time) (db : DB) (id : UUID) (b : Book)
    (hb : First db id = .ok b) (hchk : chk_quantity_issued_valid b)
    (hs : isSuccess (bookRepository.IssueBook now db id).1 = true) :
    ∃ b2 db2,
      bookRepository.ReturnBook now' (bookRepository.IssueBook now db id).2 id = (.ok b2, db2) ∧
      First db2 id = .ok b2 ∧
      b2.QuantityIssued = b.QuantityIssued := by
  have hid : b.ID = id := First_ok_id hb
  have h0 : 0 ≤ b.QuantityIssued := hchk.1
  have hq : b.QuantityIssued < b.Quantity := by
    by_contra hge
    rw [IssueBook_refused now hb (not_lt.mp hge)] at hs
    cases hs
  have hb1 := First_after_write
    { b with QuantityIssued := b.QuantityIssued + 1, UpdatedAt := now } hb hid
  rw [IssueBook_done now hb hq]
  have hpos : 0 < ({ b with QuantityIssued := b.QuantityIssued + 1, UpdatedAt := now } : Book).QuantityIssued := by
    show 0 < b.QuantityIssued + 1
    omega
  refine ⟨_, _, ReturnBook_done now' hb1 hpos, First_after_write _ hb1 hid, ?_⟩
  show b.QuantityIssued + 1 - 1 = b.QuantityIssued
  omega

/-- C7, on the test book: issue at 0 of 2, then return. -/
theorem C7_issue_then_return_witness :
    First [testBook, otherBook] 1 = .ok testBook ∧
    chk_quantity_issued_valid testBook ∧
    isSuccess (bookRepository.IssueBook 200 [testBook, otherBook] 1).1 = true ∧
    ∃ b2 db2,
      bookRepository.ReturnBook 201 (bookRepository.IssueBook 200 [testBook, otherBook] 1).2 1
        = (.ok b2, db2) ∧
      First db2 1 = .ok b2 ∧
      b2.QuantityIssued = testBook.QuantityIssued :=
  ⟨rfl, by decide, rfl,
    C7_issue_then_return 200 201 [testBook, otherBook] 1 testBook rfl (by decide) rfl⟩

/-- C8. When the book handed to the service's `UpdateBook` has `quantity` less than
its `quantity_issued`, the call returns the error "quantity cannot be less than
the number of issued copies" and the store it was given, whatever the
repository behind it is: the repository's `Update` has no part in the result. -/
theorem C8_update_guard {σ : Type} (repo : BookRepository σ) (book : Book) (s : σ)
    (h : book.Quantity < book.QuantityIssued) :
    bookService.UpdateBook repo book s
      = (some (.Errorf "quantity cannot be less than the number of issued copies"), s) := by
  unfold bookService.UpdateBook
  rw [if_pos h]

/-- C8, on the stored book with 3 copies lent out and a new quantity of 2. -/
theorem C8_update_guard_witness :
    ({ otherBook with Quantity := 2 } : Book).Quantity
      < ({ otherBook with Quantity := 2 } : Book).QuantityIssued ∧
    bookService.UpdateBook (NewBookRepository testStore 200 5) { otherBook with Quantity := 2 }
        [testBook, otherBook]
      = (some (.Errorf "quantity cannot be less than the number of issued copies"),
          [testBook, otherBook]) :=
  ⟨by decide,
    C8_update_guard (NewBookRepository testStore 200 5) { otherBook with Quantity := 2 }
      [testBook, otherBook] (by decide)⟩

/-- C9, as stated, fails: `Update` writes the column `quantity_issued` from the record
it is given.  The test book is stored with 0 of 2 copies lent out; `Update` (also
through the service's `UpdateBook`, whose guard `2 < 1` does not fire) with a
record of the same id carrying `QuantityIssued = 1` is accepted by the store,
the CHECK included, and leaves 1 stored. -/
theorem C9_counterexample :
    First [testBook] 1 = .ok testBook ∧
    testBook.QuantityIssued = 0 ∧
    bookRepository.Update testStore [testBook] { testBook with QuantityIssued := 1 }
      = (none, [{ testBook with QuantityIssued := 1 }]) ∧
    bookService.UpdateBook (NewBookRepository testStore 200 5)
        { testBook with QuantityIssued := 1 } [testBook]
      = (none, [{ testBook with QuantityIssued := 1 }]) ∧
    First (bookRepository.Update testStore [testBook] { testBook with QuantityIssued := 1 }).2 1
      = .ok { testBook with QuantityIssued := 1 } :=
  ⟨rfl, rfl, rfl, rfl, rfl⟩

/-- C9 (amended). For a stored book and a record passed to `Update` with the same id:
when `Update` returns no error, the row stored afterwards has the title, ISBN,
author ref, publisher ref, year, genre, quantity, `quantity_issued` and update
time of the record, and the id and creation time it had; when `Update` returns
an error (the store refused the statement), the table is as it was.  So the
stored `quantity_issued` is unchanged whenever the record carries the stored
value, and a `PUT` through the update handler, which builds its record from the
row it has just read, never changes the stored `quantity_issued`, whatever the
payload. -/
theorem C9_update_writes_record (store : Store) (db : DB) (book b : Book)
    (hb : First db book.ID = .ok b) :
    ((bookRepository.Update store db book).1 = none →
      First (bookRepository.Update store db book).2 book.ID
        = .ok { ID := b.ID, Title := book.Title, ISBN := book.ISBN, AuthorID := book.AuthorID,
                PublisherID := book.PublisherID, Year := book.Year, Genre := book.Genre,
                Quantity := book.Quantity, QuantityIssued := book.QuantityIssued,
                CreatedAt := b.CreatedAt, UpdatedAt := book.UpdatedAt }) ∧
    (∀ err, (bookRepository.Update store db book).1 = some err →
      (bookRepository.Update store db book).2 = db) ∧
    (book.QuantityIssued = b.QuantityIssued →
      ∃ b', First (bookRepository.Update store db book).2 book.ID = .ok b' ∧
        b'.QuantityIssued = b.QuantityIssued) ∧
    (∀ (now : Time) (newID : UUID) (body : Except Error UpdateBookRequest),
      ∃ b', First (serve store now newID (.UpdateBook (.ok book.ID) body) db).2 book.ID = .ok b' ∧
        b'.QuantityIssued = b.QuantityIssued) := by
  have hw : First (db.map (fun r => if r.ID = book.ID then updatesMap book r else r)) book.ID
      = .ok (updatesMap book b) := by
    rw [First_map_rewrite db book.ID (updatesMap book) (fun _ => rfl), hb]
    rfl
  refine ⟨?_, ?_, ?_, ?_⟩
  · intro hnone
    rcases Update_cases store db book with ⟨err, he⟩ | he
    · rw [he] at hnone; cases hnone
    · rw [he]; exact hw
  · intro err herr
    rcases Update_cases store db book with ⟨err', he⟩ | he
    · rw [he]
    · rw [he] at herr; cases herr
  · intro hq
    rcases Update_cases store db book with ⟨err, he⟩ | he
    · rw [he]; exact ⟨b, hb, rfl⟩
    · rw [he]; exact ⟨_, hw, hq⟩
  · intro now newID body
    exact serve_UpdateBook_counter store now newID book.ID body db b hb

/-- C9 (amended), on the test book: the record the update handler builds from it (the
stored row with a new title and quantity) is written and keeps the counter; a
record with the ISBN of the other book is refused (SQLSTATE 23505) and nothing
is written. -/
theorem C9_update_writes_record_witness :
    First [testBook, otherBook]
        ({ testBook with Title := "Updated Test Book", Quantity := 5 } : Book).ID
      = .ok testBook ∧
    bookRepository.Update testStore [testBook, otherBook]
        { testBook with Title := "Updated Test Book", Quantity := 5 }
      = (none, [{ testBook with Title := "Updated Test Book", Quantity := 5 }, otherBook]) ∧
    bookRepository.Update testStore [testBook, otherBook]
        { testBook with ISBN := "9876543210123" }
      = (some (.Driver "23505"), [testBook, otherBook]) ∧
    First (bookRepository.Update testStore [testBook, otherBook]
          { testBook with Title := "Updated Test Book", Quantity := 5 }).2
        ({ testBook with Title := "Updated Test Book", Quantity := 5 } : Book).ID
      = .ok { ID := testBook.ID, Title := "Updated Test Book", ISBN := testBook.ISBN,
              AuthorID := testBook.AuthorID, PublisherID := testBook.PublisherID,
              Year := testBook.Year, Genre := testBook.Genre, Quantity := 5,
              QuantityIssued := testBook.QuantityIssued, CreatedAt := testBook.CreatedAt,
              UpdatedAt := testBook.UpdatedAt } ∧
    (∃ b', First (serve testStore 200 5 (.UpdateBook (.ok 1) (.ok testUpdateRequest))
          [testBook, otherBook]).2 1 = .ok b' ∧
        b'.QuantityIssued = testBook.QuantityIssued) :=
  ⟨rfl, rfl, rfl,
    (C9_update_writes_record testStore [testBook, otherBook]
      { testBook with Title := "Updated Test Book", Quantity := 5 } testBook rfl).1 rfl,
    (C9_update_writes_record testStore [testBook, otherBook]
      { testBook with Title := "Updated Test Book", Quantity := 5 } testBook rfl).2.2.2
      200 5 (.ok testUpdateRequest)⟩

/-- C10, as stated, fails in its first half: for an id no stored book has, `Delete`
(and the service's `DeleteBook`) returns no error; the table is handed back as
it was. -/
theorem C10_counterexample :
    First [testBook, otherBook] 5 = .error .ErrRecordNotFound ∧
    bookRepository.Delete [testBook, otherBook] 5 = (none, [testBook, otherBook]) ∧
    bookService.DeleteBook (NewBookRepository testStore 200 6) 5 [testBook, otherBook]
      = (none, [testBook, otherBook]) :=
  ⟨rfl, rfl, rfl⟩

/-- C10 (amended). `Delete(id)`, and the service's `DeleteBook` which only forwards to
it, returns no error for every id.  Afterwards no stored book has that id, the
rows left are exactly the rows with another id (in their order, each read back
as before), and this whatever `quantity_issued` the deleted row had; for an id
no stored book has, the table is unchanged. -/
theorem C10_delete_removes (store : Store) (now : Time) (newID : UUID) (db : DB) (id : UUID) :
    (bookRepository.Delete db id).1 = none ∧
    bookService.DeleteBook (NewBookRepository store now newID) id db = bookRepository.Delete db id ∧
    First (bookRepository.Delete db id).2 id = .error .ErrRecordNotFound ∧
    (∀ r, r ∈ (bookRepository.Delete db id).2 ↔ r ∈ db ∧ r.ID ≠ id) ∧
    (bookRepository.Delete db id).2.Sublist db ∧
    (∀ id', id' ≠ id → First (bookRepository.Delete db id).2 id' = First db id') ∧
    (First db id = .error .ErrRecordNotFound → (bookRepository.Delete db id).2 = db) := by
  refine ⟨rfl, rfl, First_filter_ne_self db id, ?_, List.filter_sublist db, ?_, ?_⟩
  · intro r
    simp [bookRepository.Delete, List.mem_filter]
  · intro id' hne
    exact First_filter_ne_other db id id' hne
  · intro h
    exact filter_ne_of_absent db id h

/-! ## Validation of the request payloads -/

theorem firstFailure_map_none (name : String) (tags : List Tag) (v : FieldValue) :
    ((firstFailure tags v).map (fun t => (name, t.name))) = none
      ↔ ∀ t ∈ tags, t.holds v = true := by
  unfold firstFailure
  rw [Option.map_eq_none', List.find?_eq_none]
  simp

/-- The validator returns `nil` exactly when every field passes every one of its tags. -/
theorem validate_Struct_none (fields : List (String × List Tag × FieldValue)) :
    validate.Struct fields = none ↔ ∀ f ∈ fields, ∀ t ∈ f.2.1, t.holds f.2.2 = true := by
  unfold validate.Struct
  have key : fields.filterMap
        (fun f => (firstFailure f.2.1 f.2.2).map (fun t => (f.1, t.name))) = []
      ↔ ∀ f ∈ fields, ∀ t ∈ f.2.1, t.holds f.2.2 = true := by
    rw [List.filterMap_eq_nil_iff]
    constructor
    · intro h f hf
      exact (firstFailure_map_none f.1 f.2.1 f.2.2).mp (h f hf)
    · intro h f hf
      exact (firstFailure_map_none f.1 f.2.1 f.2.2).mpr (h f hf)
  rw [← key]
  generalize fields.filterMap
    (fun f => (firstFailure f.2.1 f.2.2).map (fun t => (f.1, t.name))) = l
  cases l with
  | nil => simp
  | cons x xs => simp

/-- The tags of `dto.go`, read on the values of the seven fields. -/
theorem dto_tags_pass (title isbn genre : String) (author publisher : UUID) (year quantity : Int) :
    validate.Struct
        [ ("Title", [.required], .str title),
          ("ISBN", [.required, .len 13], .str isbn),
          ("AuthorID", [.required], .uuid author),
          ("PublisherID", [.required], .uuid publisher),
          ("Year", [.required, .min 1000, .max 9999], .int year),
          ("Genre", [.required], .str genre),
          ("Quantity", [.required, .min 0], .int quantity) ] = none ↔
      title ≠ "" ∧ isbn.length = 13 ∧ author ≠ 0 ∧ publisher ≠ 0 ∧
      1000 ≤ year ∧ year ≤ 9999 ∧ genre ≠ "" ∧ 1 ≤ quantity := by
  rw [validate_Struct_none]
  simp only [List.forall_mem_cons, List.not_mem_nil, Tag.holds,
    bne_iff_ne, ne_eq, beq_iff_eq, decide_eq_true_eq, false_imp_iff, implies_true, and_true]
  constructor
  · rintro ⟨h1, ⟨_, h3⟩, h4, h5, ⟨_, h7, h8⟩, h9, h10, h11⟩
    exact ⟨h1, by exact_mod_cast h3, h4, h5, h7, h8, h9, by omega⟩
  · rintro ⟨h1, h3, h4, h5, h7, h8, h9, h10⟩
    refine ⟨h1, ⟨?_, by exact_mod_cast h3⟩, h4, h5, ⟨by omega, h7, h8⟩, h9, by omega, by omega⟩
    intro h
    rw [h] at h3
    simp at h3

/-- C11. The verdict of the `validate` tags of `dto.go`, as the code gives it: a Create
or Update payload passes if and only if its title is non-empty, its ISBN has
exactly 13 characters, `author_id` and `publisher_id` are not the nil UUID, year
is in [1000, 9999], genre is non-empty and `quantity >= 1`; `CreateBookRequest`
and `UpdateBookRequest` with the same field values get the same verdict.  The
tag of `Quantity` is `required,min=0`: its own bound admits `quantity = 0`, as
the claim does, and `required` refuses the zero value of an int, so the payload
of the integration test with its quantity set to 0, which meets every condition
of the claim, fails on `required` and `CreateBook` answers 400. -/
theorem C11_validation (c : CreateBookRequest) (u : UpdateBookRequest) :
    (validate.Struct c.fields = none ↔
      c.Title ≠ "" ∧ c.ISBN.length = 13 ∧ c.AuthorID ≠ 0 ∧ c.PublisherID ≠ 0 ∧
      1000 ≤ c.Year ∧ c.Year ≤ 9999 ∧ c.Genre ≠ "" ∧ 1 ≤ c.Quantity) ∧
    (validate.Struct u.fields = none ↔
      u.Title ≠ "" ∧ u.ISBN.length = 13 ∧ u.AuthorID ≠ 0 ∧ u.PublisherID ≠ 0 ∧
      1000 ≤ u.Year ∧ u.Year ≤ 9999 ∧ u.Genre ≠ "" ∧ 1 ≤ u.Quantity) ∧
    validate.Struct
        (CreateBookRequest.fields
          ⟨u.Title, u.ISBN, u.AuthorID, u.PublisherID, u.Year, u.Genre, u.Quantity⟩)
      = validate.Struct u.fields ∧
    (({ testCreateRequest with Quantity := 0 } : CreateBookRequest).Title ≠ "" ∧
      ({ testCreateRequest with Quantity := 0 } : CreateBookRequest).ISBN.length = 13 ∧
      ({ testCreateRequest with Quantity := 0 } : CreateBookRequest).AuthorID ≠ 0 ∧
      ({ testCreateRequest with Quantity := 0 } : CreateBookRequest).PublisherID ≠ 0 ∧
      1000 ≤ ({ testCreateRequest with Quantity := 0 } : CreateBookRequest).Year ∧
      ({ testCreateRequest with Quantity := 0 } : CreateBookRequest).Year ≤ 9999 ∧
      ({ testCreateRequest with Quantity := 0 } : CreateBookRequest).Genre ≠ "" ∧
      ({ testCreateRequest with Quantity := 0 } : CreateBookRequest).Quantity ≥ 0) ∧
    validate.Struct ({ testCreateRequest with Quantity := 0 } : CreateBookRequest).fields
      = some (.ValidationErrors [("Quantity", "required")]) ∧
    serve testStore 200 5 (.CreateBook (.ok { testCreateRequest with Quantity := 0 })) [testBook]
      = (⟨StatusBadRequest, .error (.ValidationErrors [("Quantity", "required")])⟩,
          [testBook]) :=
  ⟨dto_tags_pass c.Title c.ISBN c.Genre c.AuthorID c.PublisherID c.Year c.Quantity,
    dto_tags_pass u.Title u.ISBN u.Genre u.AuthorID u.PublisherID u.Year u.Quantity, rfl,
    ⟨by decide, by decide, by decide, by decide, by decide, by decide, by decide, by decide⟩,
    rfl, rfl⟩

/-! ## Pagination -/

/-- A value in the non-negative `int64` range is not changed by wrapping. -/
theorem wrapInt64_of_range (x : Int) (h0 : 0 ≤ x) (h1 : x < 2 ^ 63) : wrapInt64 x = x := by
  unfold wrapInt64
  have : (x + 2 ^ 63) % 2 ^ 64 = x + 2 ^ 63 := Int.emod_eq_of_lt (by omega) (by omega)
  omega

/-- The page `List` returns when the offset does not overflow. -/
theorem List_of_range (db : DB) (page limit : Int) (hp : 1 ≤ page) (hl : 1 ≤ limit)
    (hno : (page - 1) * limit < 2 ^ 63) :
    bookRepository.List db page limit
      = .ok ((db.drop ((page - 1) * limit).toNat).take limit.toNat, (db.length : Int)) := by
  have h0 : 0 ≤ (page - 1) * limit := mul_nonneg (by omega) (by omega)
  unfold bookRepository.List
  simp only [wrapInt64_of_range _ h0 hno]
  have hl' : limit ≥ 0 := by omega
  simp only [hl', if_true]
  by_cases hz : (page - 1) * limit > 0
  · simp only [hz, if_true]
  · have : (page - 1) * limit = 0 := by omega
    simp [this]

/-- C12, as stated, fails where the Go `int` product `(page - 1) * limit` overflows:
with `page = 2^62 + 1` and `limit = 4` the offset `2^64` wraps to 0, and on a
store of one book `List` returns that book, where the claim has the empty page
(position `2^64` of the store, `min(4, max(0, 1 - 2^64)) = 0` books). -/
theorem C12_counterexample :
    (1 : Int) ≤ 4611686018427387905 ∧ (1 : Int) ≤ 4 ∧
    wrapInt64 ((4611686018427387905 - 1) * 4) = 0 ∧
    bookRepository.List [testBook] 4611686018427387905 4 = .ok ([testBook], 1) ∧
    min (4 : Int) (max 0 ((([testBook] : DB).length : Int) - (4611686018427387905 - 1) * 4)) = 0 ∧
    ([testBook] : DB)[((4611686018427387905 - 1) * 4 : Int).toNat]? = none := by
  refine ⟨by decide, by decide, by decide, rfl, by decide, ?_⟩
  rw [List.getElem?_eq_none]
  simp only [List.length_singleton]
  decide

/-- C12 (amended). For `page >= 1` and `limit >= 1` whose offset `(page-1)*limit` stays
below `2^63`, `List(page, limit)` returns the books at positions `(page-1)*limit`
up to `(page-1)*limit + limit - 1` of the store's order, exactly
`min(limit, max(0, total - (page-1)*limit))` of them, together with `total`, the
number of all stored books. -/
theorem C12_list_page (db : DB) (page limit : Int) (hp : 1 ≤ page) (hl : 1 ≤ limit)
    (hno : (page - 1) * limit < 2 ^ 63) :
    ∃ rows, bookRepository.List db page limit = .ok (rows, (db.length : Int)) ∧
      (∀ i : Nat, (i : Int) < limit → rows[i]? = db[((page - 1) * limit).toNat + i]?) ∧
      (∀ i : Nat, limit ≤ (i : Int) → rows[i]? = none) ∧
      (rows.length : Int) = min limit (max 0 ((db.length : Int) - (page - 1) * limit)) := by
  have h0 : 0 ≤ (page - 1) * limit := mul_nonneg (by omega) (by omega)
  refine ⟨_, List_of_range db page limit hp hl hno, ?_, ?_, ?_⟩
  · intro i hi
    rw [List.getElem?_take_of_lt (by omega), List.getElem?_drop]
  · intro i hi
    rw [List.getElem?_eq_none]
    rw [List.length_take]
    omega
  · rw [List.length_take, List.length_drop]
    generalize (page - 1) * limit = off at h0 hno
    omega

/-- C12 (amended), on `List(1, 10)` over a store with one book: total 1 and a page of
one element. -/
theorem C12_list_page_witness :
    (1 : Int) ≤ 1 ∧ (1 : Int) ≤ 10 ∧ ((1 : Int) - 1) * 10 < 2 ^ 63 ∧
    bookRepository.List [testBook] 1 10 = .ok ([testBook], 1) ∧
    ∃ rows, bookRepository.List [testBook] 1 10
        = .ok (rows, ((([testBook] : DB)).length : Int)) ∧
      (∀ i : Nat, (i : Int) < 10 → rows[i]? = ([testBook] : DB)[(((1 : Int) - 1) * 10).toNat + i]?) ∧
      (∀ i : Nat, (10 : Int) ≤ (i : Int) → rows[i]? = none) ∧
      (rows.length : Int)
        = min 10 (max 0 (((([testBook] : DB)).length : Int) - ((1 : Int) - 1) * 10)) :=
  ⟨by decide, by decide, by decide, rfl,
    C12_list_page [testBook] 1 10 (by decide) (by decide) (by decide)⟩

/-! ## The handlers of issue and return, and the status of errors -/

/-- A key that no row carries is not found. -/
theorem First_of_absent (db : DB) (id : UUID) (h : ∀ b ∈ db, b.ID ≠ id) :
    First db id = .error .ErrRecordNotFound := by
  unfold First
  have : db.find? (fun r => decide (r.ID = id)) = none := by
    rw [List.find?_eq_none]
    intro r hr
    simpa using h r hr
  rw [this]

/-- C13. For `POST /books/:id/issue` and `POST /books/:id/return`, over any service: an
id that `uuid.Parse` rejects is answered 400 with the store untouched, whatever
the service is, and a parsed id is never answered 400; with a parsed id the
answer is 200 with the book the service returned, and 409 for every error of
the service.  On the wired program, an id that no stored book has makes both
operations fail with the wrapped `ErrRecordNotFound`, answer 409, and leave the
table as it was. -/
theorem C13_issue_return_status {σ : Type} (h : BookHandler σ) (s : σ)
    (store : Store) (now : Time) (newID : UUID) (db : DB) :
    (∀ e, h.IssueBook (.error e) s = (⟨StatusBadRequest, .message "Invalid book ID"⟩, s) ∧
      h.ReturnBook (.error e) s = (⟨StatusBadRequest, .message "Invalid book ID"⟩, s)) ∧
    (∀ id, (h.IssueBook (.ok id) s).1.status ≠ StatusBadRequest ∧
      (h.ReturnBook (.ok id) s).1.status ≠ StatusBadRequest) ∧
    (∀ id book s', h.bookService.IssueBook id s = (.ok book, s') →
      h.IssueBook (.ok id) s = (⟨StatusOK, .book book⟩, s')) ∧
    (∀ id err s', h.bookService.IssueBook id s = (.error err, s') →
      h.IssueBook (.ok id) s = (⟨StatusConflict, .error err⟩, s')) ∧
    (∀ id book s', h.bookService.ReturnBook id s = (.ok book, s') →
      h.ReturnBook (.ok id) s = (⟨StatusOK, .book book⟩, s')) ∧
    (∀ id err s', h.bookService.ReturnBook id s = (.error err, s') →
      h.ReturnBook (.ok id) s = (⟨StatusConflict, .error err⟩, s')) ∧
    (∀ id, (∀ b ∈ db, b.ID ≠ id) →
      serve store now newID (.IssueBook (.ok id)) db
        = (⟨StatusConflict, .error (.Wrapf "failed to issue book" .ErrRecordNotFound)⟩, db) ∧
      serve store now newID (.ReturnBook (.ok id)) db
        = (⟨StatusConflict, .error (.Wrapf "failed to return book" .ErrRecordNotFound)⟩, db)) := by
  refine ⟨fun e => ⟨rfl, rfl⟩, ?_, ?_, ?_, ?_, ?_, ?_⟩
  · intro id
    constructor
    · unfold BookHandler.IssueBook
      simp only
      split
      · exact (by decide : StatusConflict ≠ StatusBadRequest)
      · exact (by decide : StatusOK ≠ StatusBadRequest)
    · unfold BookHandler.ReturnBook
      simp only
      split
      · exact (by decide : StatusConflict ≠ StatusBadRequest)
      · exact (by decide : StatusOK ≠ StatusBadRequest)
  · intro id book s' hs
    unfold BookHandler.IssueBook
    simp only [hs]
  · intro id err s' hs
    unfold BookHandler.IssueBook
    simp only [hs]
  · intro id book s' hs
    unfold BookHandler.ReturnBook
    simp only [hs]
  · intro id err s' hs
    unfold BookHandler.ReturnBook
    simp only [hs]
  · intro id habs
    have hF := First_of_absent db id habs
    constructor
    · simp only [serve, NewBookHandler, NewBookService, NewBookRepository, BookHandler.IssueBook,
        bookService.IssueBook, bookRepository.IssueBook, hF]
    · simp only [serve, NewBookHandler, NewBookService, NewBookRepository, BookHandler.ReturnBook,
        bookService.ReturnBook, bookRepository.ReturnBook, hF]


/-- C13, on the wired program over a table of two books: an id that does not parse,
an issue that succeeds, an issue at capacity, and an id that no book has. -/
theorem C13_issue_return_status_witness :
    serve testStore 200 5 (.IssueBook (.error (.Lib "invalid UUID length: 3"))) [testBook, otherBook]
      = (⟨StatusBadRequest, .message "Invalid book ID"⟩, [testBook, otherBook]) ∧
    serve testStore 200 5 (.IssueBook (.ok 1)) [testBook, otherBook]
      = (⟨StatusOK, .book { testBook with QuantityIssued := 1, UpdatedAt := 200 }⟩,
          [{ testBook with QuantityIssued := 1, UpdatedAt := 200 }, otherBook]) ∧
    serve testStore 200 5 (.IssueBook (.ok 2)) [testBook, otherBook]
      = (⟨StatusConflict,
            .error (.Wrapf "failed to issue book" (.Errorf "no available copies to issue"))⟩,
          [testBook, otherBook]) ∧
    (∀ b ∈ [testBook, otherBook], b.ID ≠ 4) ∧
    serve testStore 200 5 (.IssueBook (.ok 4)) [testBook, otherBook]
      = (⟨StatusConflict, .error (.Wrapf "failed to issue book" .ErrRecordNotFound)⟩,
          [testBook, otherBook]) ∧
    serve testStore 200 5 (.ReturnBook (.ok 4)) [testBook, otherBook]
      = (⟨StatusConflict, .error (.Wrapf "failed to return book" .ErrRecordNotFound)⟩,
          [testBook, otherBook]) :=
  ⟨rfl, rfl, rfl, by decide,
    (C13_issue_return_status (NewBookHandler (NewBookService (NewBookRepository testStore 200 5)))
      [testBook, otherBook] testStore 200 5 [testBook, otherBook]).2.2.2.2.2.2 4 (by decide)⟩

/-- C15, as stated, fails: with a service whose every call fails on the connection,
`GetBook` and `UpdateBook` (whose first call is `GetBook`) answer 404 and
`IssueBook` / `ReturnBook` answer 409; `ListBooks`, `CreateBook` and `DeleteBook`
answer 500. -/
theorem C15_counterexample :
    (NewBookHandler unavailableService).GetBook (.ok 1) [testBook]
      = (⟨StatusNotFound, .message "Book not found"⟩, [testBook]) ∧
    (NewBookHandler unavailableService).UpdateBook (.ok 1) (.ok testUpdateRequest) [testBook]
      = (⟨StatusNotFound, .message "Book not found"⟩, [testBook]) ∧
    (NewBookHandler unavailableService).IssueBook (.ok 1) [testBook]
      = (⟨StatusConflict, .error (.Driver "08006")⟩, [testBook]) ∧
    (NewBookHandler unavailableService).ReturnBook (.ok 1) [testBook]
      = (⟨StatusConflict, .error (.Driver "08006")⟩, [testBook]) ∧
    (NewBookHandler unavailableService).ListBooks 1 10 [testBook]
      = (⟨StatusInternalServerError, .error (.Driver "08006")⟩, [testBook]) ∧
    (NewBookHandler unavailableService).CreateBook (.ok testCreateRequest) [testBook]
      = (⟨StatusInternalServerError, .error (.Driver "08006")⟩, [testBook]) ∧
    (NewBookHandler unavailableService).DeleteBook (.ok 1) [testBook]
      = (⟨StatusInternalServerError, .error (.Driver "08006")⟩, [testBook]) :=
  ⟨rfl, rfl, rfl, rfl, rfl, rfl, rfl⟩

/-- C15 (amended). Each handler answers every error of a service call with one fixed
status, whatever the error is, a `StoreUnavailable` one included: 500 for
`ListBooks`, for `CreateBook`, for `DeleteBook` and for the `UpdateBook` call of
the update handler; 404 for `GetBook` and for the `GetBook` call of the update
handler; 409 for `IssueBook` and `ReturnBook`. -/
theorem C15_error_status {σ : Type} (h : BookHandler σ) (s s' : σ) (err : Error) :
    (∀ page limit, h.bookService.ListBooks page limit s = (.error err, s') →
      h.ListBooks page limit s = (⟨StatusInternalServerError, .error err⟩, s')) ∧
    (∀ req book, validate.Struct (CreateBookRequest.fields req) = none →
      h.bookService.CreateBook
          { ID := 0, Title := req.Title, ISBN := req.ISBN, AuthorID := req.AuthorID,
            PublisherID := req.PublisherID, Year := req.Year, Genre := req.Genre,
            Quantity := req.Quantity, QuantityIssued := 0, CreatedAt := 0, UpdatedAt := 0 } s
        = ((some err, book), s') →
      h.CreateBook (.ok req) s = (⟨StatusInternalServerError, .error err⟩, s')) ∧
    (∀ id, h.bookService.DeleteBook id s = (some err, s') →
      h.DeleteBook (.ok id) s = (⟨StatusInternalServerError, .error err⟩, s')) ∧
    (∀ id req book s1, validate.Struct (UpdateBookRequest.fields req) = none →
      h.bookService.GetBook id s = (.ok book, s1) →
      h.bookService.UpdateBook
          { book with Title := req.Title, ISBN := req.ISBN, AuthorID := req.AuthorID,
                      PublisherID := req.PublisherID, Year := req.Year, Genre := req.Genre,
                      Quantity := req.Quantity } s1
        = (some err, s') →
      h.UpdateBook (.ok id) (.ok req) s = (⟨StatusInternalServerError, .error err⟩, s')) ∧
    (∀ id req, validate.Struct (UpdateBookRequest.fields req) = none →
      h.bookService.GetBook id s = (.error err, s') →
      h.UpdateBook (.ok id) (.ok req) s = (⟨StatusNotFound, .message "Book not found"⟩, s')) ∧
    (∀ id, h.bookService.GetBook id s = (.error err, s') →
      h.GetBook (.ok id) s = (⟨StatusNotFound, .message "Book not found"⟩, s')) ∧
    (∀ id, h.bookService.IssueBook id s = (.error err, s') →
      h.IssueBook (.ok id) s = (⟨StatusConflict, .error err⟩, s')) ∧
    (∀ id, h.bookService.ReturnBook id s = (.error err, s') →
      h.ReturnBook (.ok id) s = (⟨StatusConflict, .error err⟩, s')) := by
  refine ⟨?_, ?_, ?_, ?_, ?_, ?_, ?_, ?_⟩
  · intro page limit hs
    unfold BookHandler.ListBooks
    simp only [hs]
  · intro req book hv hs
    unfold BookHandler.CreateBook
    simp only [hv, hs]
  · intro id hs
    unfold BookHandler.DeleteBook
    simp only [hs]
  · intro id req book s1 hv hg hs
    unfold BookHandler.UpdateBook
    simp only [hv, hg, hs]
  · intro id req hv hg
    unfold BookHandler.UpdateBook
    simp only [hv, hg]
  · intro id hs
    unfold BookHandler.GetBook
    simp only [hs]
  · intro id hs
    unfold BookHandler.IssueBook
    simp only [hs]
  · intro id hs
    unfold BookHandler.ReturnBook
    simp only [hs]

/-- C15 (amended), on the service that cannot reach its store: the delete handler
answers 500 and the issue handler 409. -/
theorem C15_error_status_witness :
    unavailableService.DeleteBook 1 [testBook] = (some (.Driver "08006"), [testBook]) ∧
    (NewBookHandler unavailableService).DeleteBook (.ok 1) [testBook]
      = (⟨StatusInternalServerError, .error (.Driver "08006")⟩, [testBook]) ∧
    (NewBookHandler unavailableService).IssueBook (.ok 1) [testBook]
      = (⟨StatusConflict, .error (.Driver "08006")⟩, [testBook]) :=
  ⟨rfl,
    (C15_error_status (NewBookHandler unavailableService) [testBook] [testBook]
      (.Driver "08006")).2.2.1 1 rfl,
    (C15_error_status (NewBookHandler unavailableService) [testBook] [testBook]
      (.Driver "08006")).2.2.2.2.2.2.1 1 rfl⟩

/-! ## The issue and return scenario -/

/-- Running two lists of calls in a row. -/
theorem runCalls_append (id : UUID) (xs ys : List (Call × Time)) (db : DB) :
    runCalls id (xs ++ ys) db = runCalls id xs db ++ runCalls id ys (finalDB id xs db) := by
  induction xs generalizing db with
  | nil => rfl
  | cons c cs ih =>
    obtain ⟨c, now⟩ := c
    show runCalls id ((c, now) :: (cs ++ ys)) db = _
    simp only [runCalls, finalDB, ih, List.cons_append]

theorem finalDB_append (id : UUID) (xs ys : List (Call × Time)) (db : DB) :
    finalDB id (xs ++ ys) db = finalDB id ys (finalDB id xs db) := by
  induction xs generalizing db with
  | nil => rfl
  | cons c cs ih =>
    obtain ⟨c, now⟩ := c
    show finalDB id ((c, now) :: (cs ++ ys)) db = _
    simp only [finalDB, ih]

theorem range_succ_map {α : Type} (f : Nat → α) (n : Nat) :
    (List.range (n + 1)).map f = f 0 :: (List.range n).map (fun i => f (i + 1)) := by
  rw [List.range_succ_eq_map, List.map_cons, List.map_map]
  rfl

/-- Issues that all fit under the quantity `Q`: each succeeds with the next counter. -/
theorem issue_phase (id : UUID) (Q : Int) (ts : List Time) :
    ∀ (k : Int) (db : DB) (b : Book), First db id = .ok b → b.QuantityIssued = k →
      b.Quantity = Q → k + ts.length ≤ Q →
      (runCalls id (issueCalls ts) db).map outcome
        = (List.range ts.length).map (fun (i : Nat) => Except.ok (k + 1 + (i : Int))) ∧
      ∃ b', First (finalDB id (issueCalls ts) db) id = .ok b' ∧
        b'.QuantityIssued = k + ts.length ∧ b'.Quantity = Q := by
  induction ts with
  | nil =>
    intro k db b hb hk hQ _
    exact ⟨rfl, b, hb, by simpa using hk, hQ⟩
  | cons now ts ih =>
    intro k db b hb hk hQ hle
    have hid : b.ID = id := First_ok_id hb
    rw [List.length_cons] at hle ⊢
    push_cast at hle
    have hq : b.QuantityIssued < b.Quantity := by rw [hk, hQ]; omega
    have hb1 := First_after_write
      { b with QuantityIssued := b.QuantityIssued + 1, UpdatedAt := now } hb hid
    obtain ⟨ho, b', hb', hq', hQ'⟩ := ih (k + 1) _ _ hb1
      (by show b.QuantityIssued + 1 = k + 1; rw [hk]) hQ (by omega)
    rw [runCalls_issueCalls_cons, finalDB_issueCalls_cons, IssueBook_done now hb hq,
      List.map_cons, ho, range_succ_map]
    refine ⟨?_, b', hb', by rw [hq']; push_cast; ring, hQ'⟩
    congr 1
    · show Except.ok (b.QuantityIssued + 1) = Except.ok (k + 1 + ((0 : Nat) : Int))
      rw [hk]; simp
    · apply List.map_congr_left
      intro i _
      push_cast
      congr 1
      ring

theorem runCalls_returnCalls_cons (id : UUID) (now : Time) (ts : List Time) (db : DB) :
    runCalls id (returnCalls (now :: ts)) db
      = bookRepository.ReturnBook now db id
        :: runCalls id (returnCalls ts) (bookRepository.ReturnBook now db id).2 := rfl

theorem finalDB_returnCalls_cons (id : UUID) (now : Time) (ts : List Time) (db : DB) :
    finalDB id (returnCalls (now :: ts)) db
      = finalDB id (returnCalls ts) (bookRepository.ReturnBook now db id).2 := rfl

/-- Returns that are all covered by the counter: each succeeds with the counter one
lower. -/
theorem return_phase (id : UUID) (Q : Int) (ts : List Time) :
    ∀ (k : Int) (db : DB) (b : Book), First db id = .ok b → b.QuantityIssued = k →
      b.Quantity = Q → (ts.length : Int) ≤ k →
      (runCalls id (returnCalls ts) db).map outcome
        = (List.range ts.length).map (fun (j : Nat) => Except.ok (k - 1 - (j : Int))) ∧
      ∃ b', First (finalDB id (returnCalls ts) db) id = .ok b' ∧
        b'.QuantityIssued = k - ts.length ∧ b'.Quantity = Q := by
  induction ts with
  | nil =>
    intro k db b hb hk hQ _
    exact ⟨rfl, b, hb, by simpa using hk, hQ⟩
  | cons now ts ih =>
    intro k db b hb hk hQ hle
    have hid : b.ID = id := First_ok_id hb
    rw [List.length_cons] at hle ⊢
    push_cast at hle
    have hq : 0 < b.QuantityIssued := by rw [hk]; omega
    have hb1 := First_after_write
      { b with QuantityIssued := b.QuantityIssued - 1, UpdatedAt := now } hb hid
    obtain ⟨ho, b', hb', hq', hQ'⟩ := ih (k - 1) _ _ hb1
      (by show b.QuantityIssued - 1 = k - 1; rw [hk]) hQ (by omega)
    rw [runCalls_returnCalls_cons, finalDB_returnCalls_cons, ReturnBook_done now hb hq,
      List.map_cons, ho, range_succ_map]
    refine ⟨?_, b', hb', by rw [hq']; push_cast; ring, hQ'⟩
    congr 1
    · show Except.ok (b.QuantityIssued - 1) = Except.ok (k - 1 - ((0 : Nat) : Int))
      rw [hk]; simp
    · apply List.map_congr_left
      intro j _
      push_cast
      congr 1
      ring

/-- C14. For a stored book with `quantity = Q` and `quantity_issued = 0`: the first `Q`
calls of `IssueBook` succeed with `quantity_issued` 1, 2, ..., `Q`; the next
`IssueBook` fails with the capacity error; the `Q` calls of `ReturnBook` that
follow succeed with `quantity_issued` `Q-1`, ..., 0; the `ReturnBook` after them
fails with "no issued copies to return"; the table ends with
`quantity_issued = 0`. -/
theorem C14_scenario (db : DB) (id : UUID) (b : Book) (Q : Nat)
    (t1 t3 : List Time) (t2 t4 : Time)
    (hb : First db id = .ok b) (h0 : b.QuantityIssued = 0) (hQ : b.Quantity = Q)
    (h1 : t1.length = Q) (h3 : t3.length = Q) :
    (runCalls id (issueCalls t1 ++ [(.Issue, t2)] ++ returnCalls t3 ++ [(.Return, t4)]) db).map
        outcome
      = (List.range Q).map (fun (i : Nat) => Except.ok ((i : Int) + 1))
        ++ [.error (.Errorf "no available copies to issue")]
        ++ (List.range Q).map (fun (j : Nat) => Except.ok ((Q : Int) - 1 - (j : Int)))
        ++ [.error (.Errorf "no issued copies to return")] ∧
    ∃ b', First (finalDB id
        (issueCalls t1 ++ [(.Issue, t2)] ++ returnCalls t3 ++ [(.Return, t4)]) db) id = .ok b' ∧
      b'.QuantityIssued = 0 := by
  obtain ⟨ho1, b1, hb1, hq1, hQ1⟩ := issue_phase id Q t1 0 db b hb h0 hQ (by rw [h1]; simp)
  have hfull : b1.QuantityIssued ≥ b1.Quantity := by rw [hq1, hQ1, h1]; simp
  have hi := IssueBook_refused t2 hb1 hfull
  obtain ⟨ho3, b3, hb3, hq3, hQ3⟩ := return_phase id Q t3 Q _ b1 hb1
    (by rw [hq1, h1]; simp) hQ1 (by rw [h3])
  have hzero : b3.QuantityIssued ≤ 0 := by rw [hq3, h3]; simp
  have hr := ReturnBook_refused t4 hb3 hzero
  have e2 : runCalls id [(Call.Issue, t2)] (finalDB id (issueCalls t1) db)
      = [(.error (.Errorf "no available copies to issue"), finalDB id (issueCalls t1) db)] := by
    simp only [runCalls, Call.run, hi]
  have f2 : finalDB id [(Call.Issue, t2)] (finalDB id (issueCalls t1) db)
      = finalDB id (issueCalls t1) db := by
    simp only [finalDB, Call.run, hi]
  have e4 : runCalls id [(Call.Return, t4)]
        (finalDB id (returnCalls t3) (finalDB id (issueCalls t1) db))
      = [(.error (.Errorf "no issued copies to return"),
          finalDB id (returnCalls t3) (finalDB id (issueCalls t1) db))] := by
    simp only [runCalls, Call.run, hr]
  have f4 : finalDB id [(Call.Return, t4)]
        (finalDB id (returnCalls t3) (finalDB id (issueCalls t1) db))
      = finalDB id (returnCalls t3) (finalDB id (issueCalls t1) db) := by
    simp only [finalDB, Call.run, hr]
  constructor
  · simp only [runCalls_append, finalDB_append, f2, e2, e4, List.map_append, ho1, ho3, h1, h3,
      List.map_cons, List.map_nil, outcome]
    have hfun : (fun (i : Nat) => (Except.ok ((0 : Int) + 1 + (i : Int)) : Except Error Int))
        = fun (i : Nat) => Except.ok ((i : Int) + 1) := by
      funext i
      congr 1
      ring
    rw [hfun]
  · refine ⟨b3, ?_, by rw [hq3, h3]; simp⟩
    rw [finalDB_append, finalDB_append, finalDB_append, f2, f4]
    exact hb3

/-- C14, on the test book (`Q = 2`), the sequence of `TestBookRepository_CRUD`:
1, 2, refused, 1, 0, refused. -/
theorem C14_scenario_witness :
    First [testBook, otherBook] 1 = .ok testBook ∧
    testBook.QuantityIssued = 0 ∧ testBook.Quantity = (2 : Nat) ∧
    (runCalls 1 (issueCalls [101, 102] ++ [(.Issue, 103)] ++ returnCalls [104, 105]
        ++ [(.Return, 106)]) [testBook, otherBook]).map outcome
      = [.ok 1, .ok 2, .error (.Errorf "no available copies to issue"),
         .ok 1, .ok 0, .error (.Errorf "no issued copies to return")] ∧
    ((runCalls 1 (issueCalls [101, 102] ++ [(.Issue, 103)] ++ returnCalls [104, 105]
        ++ [(.Return, 106)]) [testBook, otherBook]).map outcome
      = (List.range 2).map (fun (i : Nat) => Except.ok ((i : Int) + 1))
        ++ [.error (.Errorf "no available copies to issue")]
        ++ (List.range 2).map (fun (j : Nat) => Except.ok (((2 : Nat) : Int) - 1 - (j : Int)))
        ++ [.error (.Errorf "no issued copies to return")] ∧
    ∃ b', First (finalDB 1
        (issueCalls [101, 102] ++ [(.Issue, 103)] ++ returnCalls [104, 105]
          ++ [(.Return, 106)]) [testBook, otherBook]) 1 = .ok b' ∧
      b'.QuantityIssued = 0) :=
  ⟨rfl, rfl, rfl, rfl,
    C14_scenario [testBook, otherBook] 1 testBook 2 [101, 102] [104, 105] 103 106
      rfl rfl rfl rfl rfl⟩

/-! ## The HTTP boundary keeps the invariant; the frame of issue and return -/

/-- The table after `IssueBook`: untouched, or the rows with the key rewritten with the
counter one higher. -/
theorem IssueBook_db (now : Time) (db : DB) (id : UUID) :
    (bookRepository.IssueBook now db id).2 = db ∨
    ∃ b, First db id = .ok b ∧ b.QuantityIssued < b.Quantity ∧
      (bookRepository.IssueBook now db id).2
        = db.map (fun r => if r.ID = id then
            { b with QuantityIssued := b.QuantityIssued + 1, UpdatedAt := now } else r) := by
  cases hF : First db id with
  | error e =>
    left
    unfold bookRepository.IssueBook
    rw [hF]
  | ok b =>
    by_cases hq : b.QuantityIssued < b.Quantity
    · right
      exact ⟨b, rfl, hq, by rw [IssueBook_done now hF hq]⟩
    · left
      rw [IssueBook_refused now hF (not_lt.mp hq)]

/-- The table after `ReturnBook`: untouched, or the rows with the key rewritten with the
counter one lower. -/
theorem ReturnBook_db (now : Time) (db : DB) (id : UUID) :
    (bookRepository.ReturnBook now db id).2 = db ∨
    ∃ b, First db id = .ok b ∧ 0 < b.QuantityIssued ∧
      (bookRepository.ReturnBook now db id).2
        = db.map (fun r => if r.ID = id then
            { b with QuantityIssued := b.QuantityIssued - 1, UpdatedAt := now } else r) := by
  cases hF : First db id with
  | error e =>
    left
    unfold bookRepository.ReturnBook
    rw [hF]
  | ok b =>
    by_cases hq : 0 < b.QuantityIssued
    · right
      exact ⟨b, rfl, hq, by rw [ReturnBook_done now hF hq]⟩
    · left
      rw [ReturnBook_refused now hF (not_lt.mp hq)]

theorem all_valid_map_replace (db : DB) (id : UUID) (x : Book)
    (hinv : ∀ b ∈ db, chk_quantity_issued_valid b) (hx : chk_quantity_issued_valid x) :
    ∀ b ∈ db.map (fun r => if r.ID = id then x else r), chk_quantity_issued_valid b := by
  intro b hb
  obtain ⟨r, hr, rfl⟩ := List.mem_map.mp hb
  split
  · exact hx
  · exact hinv r hr

theorem Call.run_keeps_all (c : Call) (now : Time) (db : DB) (id : UUID)
    (hinv : ∀ b ∈ db, chk_quantity_issued_valid b) :
    ∀ b ∈ (c.run now db id).2, chk_quantity_issued_valid b := by
  cases c with
  | Issue =>
    rcases IssueBook_db now db id with h | ⟨b, hb, hq, h⟩
    · simp only [Call.run, h]; exact hinv
    · simp only [Call.run, h]
      have hv := hinv b (First_ok_mem hb)
      refine all_valid_map_replace db id _ hinv ⟨?_, ?_⟩
      · show b.QuantityIssued + 1 ≥ 0
        have := hv.1
        omega
      · show b.QuantityIssued + 1 ≤ b.Quantity
        omega
  | Return =>
    rcases ReturnBook_db now db id with h | ⟨b, hb, hq, h⟩
    · simp only [Call.run, h]; exact hinv
    · simp only [Call.run, h]
      have hv := hinv b (First_ok_mem hb)
      refine all_valid_map_replace db id _ hinv ⟨?_, ?_⟩
      · show b.QuantityIssued - 1 ≥ 0
        omega
      · show b.QuantityIssued - 1 ≤ b.Quantity
        have := hv.2
        omega

theorem serve_IssueBook_db (store : Store) (now : Time) (newID : UUID) (id : UUID) (db : DB) :
    (serve store now newID (.IssueBook (.ok id)) db).2 = (bookRepository.IssueBook now db id).2 := by
  simp only [serve, NewBookHandler, NewBookService, NewBookRepository, BookHandler.IssueBook,
    bookService.IssueBook]
  split <;> rename_i h <;> split at h <;> rename_i h2 <;> cases h <;> rw [h2]

theorem serve_ReturnBook_db (store : Store) (now : Time) (newID : UUID) (id : UUID) (db : DB) :
    (serve store now newID (.ReturnBook (.ok id)) db).2 = (bookRepository.ReturnBook now db id).2 := by
  simp only [serve, NewBookHandler, NewBookService, NewBookRepository, BookHandler.ReturnBook,
    bookService.ReturnBook]
  split <;> rename_i h <;> split at h <;> rename_i h2 <;> cases h <;> rw [h2]

theorem First_append_new (db : DB) (x : Book)
    (h : ¬ db.any (fun r => decide (r.ID = x.ID)) = true) :
    First (db ++ [x]) x.ID = .ok x := by
  unfold First
  have hnone : db.find? (fun r => decide (r.ID = x.ID)) = none := by
    rw [List.find?_eq_none]
    intro r hr hd
    exact h (List.any_eq_true.mpr ⟨r, hr, hd⟩)
  rw [List.find?_append, hnone]
  simp

/-- Every request leaves a table whose rows all satisfy the constraint, when they all
did before. -/
theorem serve_keeps_all (store : Store) (now : Time) (newID : UUID) (req : Request) (db : DB)
    (hinv : ∀ b ∈ db, chk_quantity_issued_valid b) :
    ∀ b ∈ (serve store now newID req db).2, chk_quantity_issued_valid b := by
  cases req with
  | ListBooks page limit => exact hinv
  | GetBook id =>
    cases id with
    | error e => exact hinv
    | ok id =>
      have : (serve store now newID (.GetBook (.ok id)) db).2 = db := by
        simp only [serve, NewBookHandler, NewBookService, NewBookRepository, BookHandler.GetBook,
          bookService.GetBook, bookRepository.GetByID]
        cases hF : First db id <;> rfl
      rw [this]; exact hinv
  | CreateBook body =>
    cases body with
    | error e => exact hinv
    | ok req =>
      cases hv : validate.Struct req.fields with
      | some err => rw [serve_CreateBook_invalid store now newID req db err hv]; exact hinv
      | none =>
        rcases serve_CreateBook store now newID req db hv with ⟨err, he⟩ | ⟨_, he⟩
        · rw [he]; exact hinv
        · rw [he]
          intro b hb
          rcases List.mem_append.mp hb with hb | hb
          · exact hinv b hb
          · rw [List.mem_singleton] at hb
            subst hb
            have hq := ((dto_tags_pass req.Title req.ISBN req.Genre req.AuthorID req.PublisherID
              req.Year req.Quantity).mp hv).2.2.2.2.2.2.2
            exact ⟨le_refl _, by show (0 : Int) ≤ req.Quantity; omega⟩
  | UpdateBook id body =>
    cases id with
    | error e => exact hinv
    | ok id =>
      cases body with
      | error e => exact hinv
      | ok req =>
        cases hv : validate.Struct req.fields with
        | some err =>
          rw [serve_UpdateBook_invalid store now newID id req db err hv]; exact hinv
        | none =>
          cases hb : First db id with
          | error e => rw [serve_UpdateBook_absent store now newID id req db e hv hb]; exact hinv
          | ok b =>
            rcases serve_UpdateBook store now newID id req db b hv hb with h | ⟨hq, h⟩
            · rw [h]; exact hinv
            · rw [h]
              intro x hx
              obtain ⟨r, hr, rfl⟩ := List.mem_map.mp hx
              split
              · have hv0 := (hinv b (First_ok_mem hb)).1
                exact ⟨hv0, by show b.QuantityIssued ≤ req.Quantity; omega⟩
              · exact hinv r hr
  | DeleteBook id =>
    cases id with
    | error e => exact hinv
    | ok id =>
      intro b hb
      have : (serve store now newID (.DeleteBook (.ok id)) db).2
          = db.filter (fun r => decide (r.ID ≠ id)) := rfl
      rw [this] at hb
      exact hinv b (List.mem_filter.mp hb).1
  | IssueBook id =>
    cases id with
    | error e => exact hinv
    | ok id =>
      rw [serve_IssueBook_db]
      exact Call.run_keeps_all .Issue now db id hinv
  | ReturnBook id =>
    cases id with
    | error e => exact hinv
    | ok id =>
      rw [serve_ReturnBook_db]
      exact Call.run_keeps_all .Return now db id hinv

/-- Every table the API builds from the empty one, with or without the CHECK, holds only
rows that satisfy `chk_quantity_issued_valid`. -/
theorem serveAll_valid (store : Store) (reqs : List (Time × UUID × Request)) :
    ∀ b ∈ serveAll store reqs [], chk_quantity_issued_valid b := by
  have key : ∀ (rs : List (Time × UUID × Request)) (db : DB),
      (∀ b ∈ db, chk_quantity_issued_valid b) →
      ∀ b ∈ serveAll store rs db, chk_quantity_issued_valid b := by
    intro rs
    induction rs with
    | nil => intro db h; exact h
    | cons r rest ih =>
      obtain ⟨now, newID, req⟩ := r
      intro db h
      exact ih _ (serve_keeps_all store now newID req db h)
  exact key reqs [] (fun b hb => by cases hb)

/-- C16. Without relying on the CHECK constraint (the statement is for every `store`,
with `chk` false as well as true): when every stored book satisfies
`0 <= quantity_issued <= quantity`, any one request to the handlers (`CreateBook`,
`UpdateBook`, `DeleteBook`, `IssueBook`, `ReturnBook`, also `ListBooks` and
`GetBook`), with any payload and any id, leaves a table in which every book
satisfies it; and a book that `CreateBook` answers with 201 has
`quantity_issued = 0` and is the row stored under its id. -/
theorem C16_http_keeps_invariant (store : Store) (now : Time) (newID : UUID) (req : Request) (db : DB)
    (hinv : ∀ b ∈ db, chk_quantity_issued_valid b) :
    (∀ b ∈ (serve store now newID req db).2, chk_quantity_issued_valid b) ∧
    (∀ body book, req = .CreateBook body →
      (serve store now newID req db).1 = ⟨StatusCreated, .book book⟩ →
      book.QuantityIssued = 0 ∧ First (serve store now newID req db).2 book.ID = .ok book) := by
  refine ⟨serve_keeps_all store now newID req db hinv, ?_⟩
  rintro body book rfl hresp
  cases body with
  | error e =>
    have : (serve store now newID (.CreateBook (.error e)) db).1 = ⟨StatusBadRequest, .error e⟩ := rfl
    rw [this] at hresp
    cases hresp
  | ok req =>
    cases hv : validate.Struct req.fields with
    | some err =>
      rw [serve_CreateBook_invalid store now newID req db err hv] at hresp
      cases hresp
    | none =>
      rcases serve_CreateBook store now newID req db hv with ⟨err, he⟩ | ⟨hdup, he⟩
      · rw [he] at hresp
        simp only [Response.mk.injEq] at hresp
        exact absurd hresp.1 (by decide)
      · rw [he] at hresp ⊢
        simp only [Response.mk.injEq, Body.book.injEq, true_and] at hresp
        subst hresp
        exact ⟨rfl, First_append_new db _ hdup⟩

/-- C16, on a table of two books and the create request of the integration test. -/
theorem C16_http_keeps_invariant_witness :
    (∀ b ∈ [testBook, otherBook], chk_quantity_issued_valid b) ∧
    serve testStore 200 5 (.CreateBook (.ok testCreateRequest)) [testBook, otherBook]
      = (⟨StatusCreated, .book
            { ID := 5, Title := "New Integration Book", ISBN := "0000001234567", AuthorID := 7,
              PublisherID := 9, Year := 2025, Genre := "Fiction", Quantity := 5,
              QuantityIssued := 0, CreatedAt := 200, UpdatedAt := 200 }⟩,
          [testBook, otherBook,
            { ID := 5, Title := "New Integration Book", ISBN := "0000001234567", AuthorID := 7,
              PublisherID := 9, Year := 2025, Genre := "Fiction", Quantity := 5,
              QuantityIssued := 0, CreatedAt := 200, UpdatedAt := 200 }]) ∧
    (∀ b ∈ (serve testStore 200 5 (.CreateBook (.ok testCreateRequest)) [testBook, otherBook]).2,
      chk_quantity_issued_valid b) ∧
    (∀ body book, Request.CreateBook (.ok testCreateRequest) = .CreateBook body →
      (serve testStore 200 5 (.CreateBook (.ok testCreateRequest)) [testBook, otherBook]).1
        = ⟨StatusCreated, .book book⟩ →
      book.QuantityIssued = 0 ∧
      First (serve testStore 200 5 (.CreateBook (.ok testCreateRequest)) [testBook, otherBook]).2 book.ID
        = .ok book) :=
  ⟨by decide, rfl,
    C16_http_keeps_invariant testStore 200 5 (.CreateBook (.ok testCreateRequest)) [testBook, otherBook]
      (by decide)⟩

theorem Book.sameCatalogueData_refl (b : Book) : b.sameCatalogueData b :=
  ⟨rfl, rfl, rfl, rfl, rfl, rfl, rfl, rfl, rfl⟩

/-- The table after one call: untouched, or the rows with the key rewritten by a record
that differs from the row read only in the counter and the update time. -/
theorem Call.run_shape (c : Call) (now : Time) (db : DB) (id : UUID) :
    (c.run now db id).2 = db ∨
    ∃ b x, First db id = .ok b ∧ b.sameCatalogueData x ∧
      (c.run now db id).2 = db.map (fun r => if r.ID = id then x else r) := by
  cases c with
  | Issue =>
    rcases IssueBook_db now db id with h | ⟨b, hb, _, h⟩
    · exact Or.inl h
    · exact Or.inr ⟨b, { b with QuantityIssued := b.QuantityIssued + 1, UpdatedAt := now }, hb,
        ⟨rfl, rfl, rfl, rfl, rfl, rfl, rfl, rfl, rfl⟩, h⟩
  | Return =>
    rcases ReturnBook_db now db id with h | ⟨b, hb, _, h⟩
    · exact Or.inl h
    · exact Or.inr ⟨b, { b with QuantityIssued := b.QuantityIssued - 1, UpdatedAt := now }, hb,
        ⟨rfl, rfl, rfl, rfl, rfl, rfl, rfl, rfl, rfl⟩, h⟩

/-- Reading a key is not affected by a rewriting that keeps every key and leaves the
rows with that key alone. -/
theorem First_map_fixed (db : DB) (id' : UUID) (g : Book → Book)
    (hg : ∀ r, (g r).ID = r.ID) (hfix : ∀ r, r.ID = id' → g r = r) :
    First (db.map g) id' = First db id' := by
  have key : ∀ l : List Book,
      (l.map g).find? (fun r => decide (r.ID = id')) = l.find? (fun r => decide (r.ID = id')) := by
    intro l
    induction l with
    | nil => rfl
    | cons r rs ih =>
      rw [List.map_cons, List.find?_cons, List.find?_cons, ih, hg]
      by_cases hr : r.ID = id'
      · rw [hfix r hr]
      · rw [decide_eq_false hr]
  unfold First
  rw [key]

/-- Under the primary key, the row a key reads is the only row with that key. -/
theorem eq_of_First_of_nodup {db : DB} {id : UUID} {b r : Book}
    (hpk : (db.map Book.ID).Nodup) (hb : First db id = .ok b) (hr : r ∈ db) (hid : r.ID = id) :
    r = b :=
  List.inj_on_of_nodup_map hpk hr (First_ok_mem hb) (hid.trans (First_ok_id hb).symm)

/-- C17. `IssueBook(id)` and `ReturnBook(id)` add and remove no book (the keys of the
table, in order, are the same), leave every row with another id as it was, in
its place and as read by its key, change nothing at all when no book has the
id, and leave the book with that id with the same id, title, ISBN, author ref,
publisher ref, year, genre, quantity and creation time: only `quantity_issued`
and the update time may differ.  Under the primary key (no two rows with one
id) this holds row by row. -/
theorem C17_frame (c : Call) (now : Time) (db : DB) (id : UUID) :
    (c.run now db id).2.map Book.ID = db.map Book.ID ∧
    (∀ (i : Nat) (r : Book), db[i]? = some r → r.ID ≠ id → (c.run now db id).2[i]? = some r) ∧
    (∀ id', id' ≠ id → First (c.run now db id).2 id' = First db id') ∧
    ((∀ r ∈ db, r.ID ≠ id) → (c.run now db id).2 = db) ∧
    (∀ b, First db id = .ok b →
      ∃ b', First (c.run now db id).2 id = .ok b' ∧ b.sameCatalogueData b') ∧
    ((db.map Book.ID).Nodup → ∀ (i : Nat) (r : Book), db[i]? = some r →
      ∃ r', (c.run now db id).2[i]? = some r' ∧ r.sameCatalogueData r') := by
  rcases Call.run_shape c now db id with h | ⟨b, x, hb, hx, h⟩
  · rw [h]
    exact ⟨rfl, fun i r hr _ => hr, fun _ _ => rfl, fun _ => rfl,
      fun b hb => ⟨b, hb, b.sameCatalogueData_refl⟩,
      fun _ i r hr => ⟨r, hr, r.sameCatalogueData_refl⟩⟩
  · have hxid : x.ID = id := hx.1.trans (First_ok_id hb)
    rw [h]
    refine ⟨?_, ?_, ?_, ?_, ?_, ?_⟩
    · rw [List.map_map]
      apply List.map_congr_left
      intro r _
      show (if r.ID = id then x else r).ID = r.ID
      split
      · rename_i hr; rw [hxid, hr]
      · rfl
    · intro i r hr hne
      rw [List.getElem?_map, hr]
      simp [hne]
    · intro id' hne
      apply First_map_fixed
      · intro r
        show (if r.ID = id then x else r).ID = r.ID
        split
        · rename_i hr; rw [hxid, hr]
        · rfl
      · intro r hr
        have : ¬ r.ID = id := fun h => hne (hr.symm.trans h)
        show (if r.ID = id then x else r) = r
        rw [if_neg this]
    · intro habs
      rw [First_of_absent db id habs] at hb
      cases hb
    · intro b0 hb0
      rw [hb] at hb0
      cases hb0
      exact ⟨x, First_after_write x hb hxid, hx⟩
    · intro hpk i r hr
      rw [List.getElem?_map, hr]
      by_cases hid : r.ID = id
      · have hrb : r = b := eq_of_First_of_nodup hpk hb (List.getElem?_mem hr) hid
        refine ⟨x, by simp [hid], ?_⟩
        rw [hrb]; exact hx
      · exact ⟨r, by simp [hid], r.sameCatalogueData_refl⟩

/-- C17, on an issue of the test book in a table of two books. -/
theorem C17_frame_witness :
    (Call.Issue.run 200 [testBook, otherBook] 1).2
      = [{ testBook with QuantityIssued := 1, UpdatedAt := 200 }, otherBook] ∧
    (Call.Issue.run 200 [testBook, otherBook] 1).2.map Book.ID
      = [testBook, otherBook].map Book.ID ∧
    (∀ id', id' ≠ 1 →
      First (Call.Issue.run 200 [testBook, otherBook] 1).2 id' = First [testBook, otherBook] id') :=
  ⟨rfl, (C17_frame .Issue 200 [testBook, otherBook] 1).1,
    (C17_frame .Issue 200 [testBook, otherBook] 1).2.2.1⟩

end LibraryApi
